import Mathlib

set_option maxHeartbeats 1000000

/-!
A verification development for the emailParse repository.

The Python sources are shallowly embedded as executable Lean definitions.
External library boundaries (boto3, BeautifulSoup, the email package, the
OpenAI client, json) are represented by explicit oracle parameters or by
pre-extracted input structures; everything the repository itself computes
is translated function by function.
-/

/- ------------------------------------------------------------------ -/
/- Python string helpers                                               -/
/- ------------------------------------------------------------------ -/

/-- Whitespace characters stripped by Python str.strip (ASCII range). -/
def isPyWhitespace (c : Char) : Bool :=
  c = ' ' || c = '\t' || c = '\n' || c = '\r' || c = Char.ofNat 11 || c = Char.ofNat 12

/-- Models Python str.strip with no arguments (leading and trailing whitespace removed). -/
def pyStrip (s : String) : String :=
  String.mk (((s.toList.dropWhile isPyWhitespace).reverse.dropWhile isPyWhitespace).reverse)

/-- Splits a character list at line boundaries, models Python str.splitlines
followed by keeping the produced pieces (an empty trailing piece is produced
here and is dropped by the callers, which filter empty lines anyway). -/
def splitLinesAux : List Char → List Char → List (List Char)
  | [], acc => [acc.reverse]
  | '\r' :: '\n' :: rest, acc => acc.reverse :: splitLinesAux rest []
  | '\r' :: rest, acc => acc.reverse :: splitLinesAux rest []
  | '\n' :: rest, acc => acc.reverse :: splitLinesAux rest []
  | c :: rest, acc => splitLinesAux rest (c :: acc)

/-- Line splitting on a string. -/
def splitLines (s : String) : List String :=
  (splitLinesAux s.toList []).map String.mk

/-- Boolean substring test: does s contain sub as a contiguous substring. -/
def strContains (s sub : String) : Bool :=
  decide (sub.toList <:+: s.toList)

/-- Lowercasing, charwise (kernel-reducible form of str.lower). -/
def pyLower (s : String) : String :=
  String.mk (s.toList.map Char.toLower)

/-- Boolean prefix test (str.startswith). -/
def strStartsWith (s t : String) : Bool :=
  t.toList.isPrefixOf s.toList

/-- Joining with a separator (str.join), list based. -/
def pyJoin (sep : String) (parts : List String) : String :=
  String.mk (List.intercalate sep.toList (parts.map String.toList))

/-- Splitting on whitespace runs dropping empties (str.split with no
arguments), list based. -/
def splitWsAux : List Char → List Char → List String
  | [], acc => if acc.isEmpty then [] else [String.mk acc.reverse]
  | c :: rest, acc =>
    if isPyWhitespace c then
      if acc.isEmpty then splitWsAux rest []
      else String.mk acc.reverse :: splitWsAux rest []
    else splitWsAux rest (c :: acc)

/-- Case-insensitive substring test, models Python re.search with re.I on a literal pattern. -/
def strContainsCI (s sub : String) : Bool :=
  strContains (pyLower s) (pyLower sub)

/-- Truthiness of an optional Python string: present and non-empty. -/
def truthyStr : Option String → Bool
  | none => false
  | some s => s ≠ ""

/-- Models the Python expression a or b on two optional strings
(the first operand is returned when it is truthy, otherwise the second). -/
def pyOrOpt (a b : Option String) : Option String :=
  match a with
  | some s => if s ≠ "" then some s else b
  | none => b

/-- Models Python str.replace for a single-character pattern (the only form
the sources use), charwise and structurally. -/
def pyReplaceChar (s : String) (a b : Char) : String :=
  String.mk (s.toList.map (fun c => if c = a then b else c))

/-- Models Python urllib.parse.unquote_plus restricted to single-byte escapes:
plus becomes space and a percent escape of two hex digits becomes the coded
character; malformed escapes are left untouched. -/
def unquoteChars : List Char → List Char
  | [] => []
  | '+' :: rest => ' ' :: unquoteChars rest
  | '%' :: h₁ :: h₂ :: rest =>
    if h₁.isDigit || ('a' ≤ h₁.toLower && h₁.toLower ≤ 'f') then
      if h₂.isDigit || ('a' ≤ h₂.toLower && h₂.toLower ≤ 'f') then
        let v₁ := if h₁.isDigit then h₁.toNat - 48 else h₁.toLower.toNat - 87
        let v₂ := if h₂.isDigit then h₂.toNat - 48 else h₂.toLower.toNat - 87
        Char.ofNat (16 * v₁ + v₂) :: unquoteChars rest
      else '%' :: unquoteChars (h₁ :: h₂ :: rest)
    else '%' :: unquoteChars (h₁ :: h₂ :: rest)
  | c :: rest => c :: unquoteChars rest

/-- String form of unquote_plus. -/
def unquote_plus (s : String) : String :=
  String.mk (unquoteChars s.toList)

/- ------------------------------------------------------------------ -/
/- Dates                                                               -/
/- ------------------------------------------------------------------ -/

/-- Models Python datetime.date as a plain year-month-day triple. -/
structure PyDate where
  year : Nat
  month : Nat
  day : Nat
  deriving DecidableEq, Repr

/-- ISO rendering of a date as produced by pydantic model_dump in json mode. -/
def isoOfDate (d : PyDate) : String :=
  (toString d.year) ++ "-" ++
  (if d.month < 10 then "0" else "") ++ toString d.month ++ "-" ++
  (if d.day < 10 then "0" else "") ++ toString d.day

/- ------------------------------------------------------------------ -/
/- The parsed dict passed to store_result (src/app/app.py)             -/
/- ------------------------------------------------------------------ -/

/-- Models the Python dict handed to store_result: the json-mode dump of a
Booking model plus the keys the lambda handler adds.  A field being none
models the key being absent from the dict or mapped to None. -/
structure Parsed where
  confirmation : Option String := none
  id : Option String := none
  source_bucket : Option String := none
  source_key : Option String := none
  name : Option String := none
  address : Option String := none
  city : Option String := none
  check_in_date : Option String := none
  check_out_date : Option String := none
  booking_date : Option String := none
  check_in_time : Option String := none
  check_out_time : Option String := none
  early_check_in_time : Option String := none
  early_check_in_cost : Option String := none
  amount_paid : Option String := none
  amount_total : Option String := none
  breakfast_included : Option Bool := none
  cancellation_terms : Option String := none
  what3words : Option String := none
  room_type : Option String := none
  website : Option String := none
  deriving DecidableEq, Repr

/-- Models one item of the DynamoDB bookings table as written by store_result
(the attribute set of its UpdateExpression, src/app/app.py lines 46-99). -/
structure StoredItem where
  confirmation : String
  name : Option String
  address : Option String
  city : Option String
  check_in_date : Option String
  check_out_date : Option String
  booking_date : Option String
  check_in_time : Option String
  check_out_time : Option String
  early_check_in_time : Option String
  early_check_in_cost : Option String
  amount_paid : Option String
  amount_total : Option String
  breakfast_included : Bool
  cancellation_terms : Option String
  what3words : Option String
  room_type : Option String
  website : Option String
  source_bucket : Option String
  source_key : Option String
  updated_at : String
  created_at : String
  deriving DecidableEq, Repr

/-- The write-side bookings table, keyed on the confirmation attribute. -/
def BookingsTable : Type := String → Option StoredItem

/-- Models src/app/app.py lines 26-29: the confirmation primary key, derived
from the parsed dict when its confirmation entry is missing or falsy. -/
def deriveConfirmation (p : Parsed) : String :=
  match p.confirmation with
  | some c =>
    if c ≠ "" then c
    else pyOrOpt p.id (some (pyReplaceChar (p.source_key.getD "unknown") '/' '_')) |>.getD ""
  | none =>
    pyOrOpt p.id (some (pyReplaceChar (p.source_key.getD "unknown") '/' '_')) |>.getD ""

/-- Models src/app/app.py line 32: website is stringified when truthy, else None. -/
def normWebsite (p : Parsed) : Option String :=
  match p.website with
  | some w => if w ≠ "" then some w else none
  | none => none

/-- Models store_result (src/app/app.py lines 17-131): derives the
confirmation key, then performs the UpdateItem upsert.  Every booking
attribute is SET from the parsed dict, updated_at is SET to the current
timestamp, and created_at is SET with if_not_exists so it keeps the value of
an existing item.  Returns the updated table together with the parsed dict,
whose confirmation entry may have been filled in. -/
def store_result (p : Parsed) (now : String) (table : BookingsTable) :
    BookingsTable × Parsed :=
  let c := deriveConfirmation p
  let p₂ := { p with confirmation := some c }
  let old := table c
  let item : StoredItem :=
    { confirmation := c
      name := p.name
      address := p.address
      city := p.city
      check_in_date := p.check_in_date
      check_out_date := p.check_out_date
      booking_date := p.booking_date
      check_in_time := p.check_in_time
      check_out_time := p.check_out_time
      early_check_in_time := p.early_check_in_time
      early_check_in_cost := p.early_check_in_cost
      amount_paid := p.amount_paid
      amount_total := p.amount_total
      breakfast_included := p.breakfast_included.getD false
      cancellation_terms := p.cancellation_terms
      what3words := p.what3words
      room_type := p.room_type
      website := normWebsite p
      source_bucket := p.source_bucket
      source_key := p.source_key
      updated_at := now
      created_at := match old with
        | some o => o.created_at
        | none => now }
  (fun k => if k = c then some item else table k, p₂)

/- ------------------------------------------------------------------ -/
/- Python exceptions                                                   -/
/- ------------------------------------------------------------------ -/

/-- Models the Python exceptions raised along the embedded code paths. -/
inductive PyErr where
  | valueError
  | typeError
  | indexError
  | keyError
  | attributeError
  | validationError
  | clientError
  deriving DecidableEq, Repr

/- ------------------------------------------------------------------ -/
/- Regex scanners used by src/app/parsers/booking.py                   -/
/- ------------------------------------------------------------------ -/

/-- Word characters for the regex word-boundary assertion (ASCII model of \w). -/
def isWordChar (c : Char) : Bool :=
  c.isAlphanum || c = '_'

/-- Characters of the confirmation-code character class [A-Z0-9]. -/
def isConfChar (c : Char) : Bool :=
  ('A' ≤ c && c ≤ 'Z') || c.isDigit

/-- Models re.search over the confirmation fallback pattern of
src/app/parsers/booking.py line 91 (a word-bounded run of 8 to 12
characters drawn from [A-Z0-9]); prev carries the previous character for
the boundary test. -/
def findConfCode : Option Char → List Char → Option String
  | _, [] => none
  | prev, c :: rest =>
    let boundary := match prev with
      | none => true
      | some p => ¬ isWordChar p
    if boundary && isConfChar c then
      let run := (c :: rest).takeWhile isConfChar
      let afterOk := match (c :: rest).drop run.length with
        | [] => true
        | a :: _ => ¬ isWordChar a
      if 8 ≤ run.length && run.length ≤ 12 && afterOk then some (String.mk run)
      else findConfCode (some c) rest
    else findConfCode (some c) rest

/-- Tail of the pound-amount pattern of src/app/parsers/booking.py lines 163
and 237, applied after the pound sign: optional whitespace, one or more
digits, optionally a dot with exactly two digits.  Returns group 1. -/
def amountAfterPound (l : List Char) : Option String :=
  let afterWs := l.dropWhile isPyWhitespace
  let digits := afterWs.takeWhile Char.isDigit
  if digits.isEmpty then none
  else
    match afterWs.drop digits.length with
    | '.' :: d₁ :: d₂ :: _ =>
      if d₁.isDigit && d₂.isDigit then some (String.mk (digits ++ ['.', d₁, d₂]))
      else some (String.mk digits)
    | _ => some (String.mk digits)

/-- Scans for the leftmost pound-amount match and returns its group 1. -/
def findAmount : List Char → Option String
  | [] => none
  | '£' :: rest =>
    match amountAfterPound rest with
    | some g => some g
    | none => findAmount rest
  | _ :: rest => findAmount rest

/-- Tail of the time pattern of src/app/parsers/booking.py line 124 after the
digits: optional whitespace then am or pm (case-insensitive) at a word
boundary.  Returns the matched tail characters. -/
def timeTail (l : List Char) : Option (List Char) :=
  let ws := l.takeWhile isPyWhitespace
  match l.drop ws.length with
  | a :: m :: after =>
    if (a.toLower = 'a' || a.toLower = 'p') && m.toLower = 'm' &&
       (match after with | [] => true | x :: _ => ¬ isWordChar x) then
      some (ws ++ [a, m])
    else none
  | _ => none

/-- Scans for the leftmost time match, models re.search of the pattern at
line 124 with re.I: a word-bounded one-or-two digit number, optional
whitespace, then am or pm.  Returns the lowercased group 0 as the source
does at lines 125-127. -/
def findTime : Option Char → List Char → Option String
  | _, [] => none
  | prev, c :: rest =>
    let boundary := match prev with
      | none => true
      | some p => ¬ isWordChar p
    if boundary && c.isDigit then
      let attempt2 :=
        match rest with
        | d₂ :: rest₂ =>
          if d₂.isDigit then (timeTail rest₂).map (fun t => [c, d₂] ++ t) else none
        | [] => none
      match attempt2 with
      | some m => some (String.mk (m.map Char.toLower))
      | none =>
        match (timeTail rest).map (fun t => c :: t) with
        | some m => some (String.mk (m.map Char.toLower))
        | none => findTime (some c) rest
    else findTime (some c) rest

/-- Tail of the loose date pattern of src/app/parsers/booking.py line 114
after the day digits: whitespace, exactly three letters, whitespace, four
digits.  Returns the matched tail. -/
def dateRegexTail (l : List Char) : Option (List Char) :=
  let ws₁ := l.takeWhile isPyWhitespace
  if ws₁.isEmpty then none
  else
    match l.drop ws₁.length with
    | a :: b :: c :: rest =>
      if a.isAlpha && b.isAlpha && c.isAlpha then
        let ws₂ := rest.takeWhile isPyWhitespace
        if ws₂.isEmpty then none
        else
          match rest.drop ws₂.length with
          | y₁ :: y₂ :: y₃ :: y₄ :: _ =>
            if y₁.isDigit && y₂.isDigit && y₃.isDigit && y₄.isDigit then
              some (ws₁ ++ [a, b, c] ++ ws₂ ++ [y₁, y₂, y₃, y₄])
            else none
          | _ => none
      else none
    | _ => none

/-- Scans for the leftmost match of the loose date pattern, one or two day
digits taken greedily.  Returns group 1 (the whole match). -/
def dateRegexFind : List Char → Option String
  | [] => none
  | c :: rest =>
    if c.isDigit then
      let attempt2 :=
        match rest with
        | d₂ :: rest₂ =>
          if d₂.isDigit then (dateRegexTail rest₂).map (fun t => [c, d₂] ++ t) else none
        | [] => none
      match attempt2 with
      | some m => some (String.mk m)
      | none =>
        match (dateRegexTail rest).map (fun t => c :: t) with
        | some m => some (String.mk m)
        | none => dateRegexFind rest
    else dateRegexFind rest

/-- Models re.search of the what3words pattern at line 204 (three slashes and
three dot-separated letter runs, case-insensitive). -/
def w3wAt (l : List Char) : Option (List Char) :=
  match l with
  | '/' :: '/' :: '/' :: rest =>
    let w₁ := rest.takeWhile Char.isAlpha
    if w₁.isEmpty then none
    else
      match rest.drop w₁.length with
      | '.' :: rest₂ =>
        let w₂ := rest₂.takeWhile Char.isAlpha
        if w₂.isEmpty then none
        else
          match rest₂.drop w₂.length with
          | '.' :: rest₃ =>
            let w₃ := rest₃.takeWhile Char.isAlpha
            if w₃.isEmpty then none
            else some (['/', '/', '/'] ++ w₁ ++ ['.'] ++ w₂ ++ ['.'] ++ w₃)
          | _ => none
      | _ => none
  | _ => none

/-- Leftmost what3words match in the text. -/
def findW3W : List Char → Option String
  | [] => none
  | c :: rest =>
    match w3wAt (c :: rest) with
    | some m => some (String.mk m)
    | none => findW3W rest

/-- First index at which needle occurs as a contiguous sublist of hay. -/
def findSubIdx (hay needle : List Char) : Option Nat :=
  (List.range (hay.length + 1)).find? (fun i => needle.isPrefixOf (hay.drop i))

/-- Models Python str.split with no arguments: split on whitespace runs,
dropping empty pieces. -/
def pySplitWs (s : String) : List String :=
  splitWsAux s.toList []

/- ------------------------------------------------------------------ -/
/- strptime for the two formats used by the fallback parser            -/
/- ------------------------------------------------------------------ -/

/-- Abbreviated weekday names accepted by the %a directive in the C locale. -/
def weekdayAbbrs : List String :=
  ["mon", "tue", "wed", "thu", "fri", "sat", "sun"]

/-- Abbreviated month names accepted by the %b directive in the C locale. -/
def monthAbbrs : List String :=
  ["jan", "feb", "mar", "apr", "may", "jun", "jul", "aug", "sep", "oct", "nov", "dec"]

/-- Numeric value of a digit run. -/
def digitsToNat (l : List Char) : Nat :=
  l.foldl (fun acc c => 10 * acc + (c.toNat - 48)) 0

/-- Gregorian leap-year test, as datetime uses. -/
def isLeapYear (y : Nat) : Bool :=
  (y % 4 = 0 && y % 100 ≠ 0) || y % 400 = 0

/-- Number of days of a month, as datetime validates. -/
def daysInMonth (y m : Nat) : Nat :=
  if m = 2 then (if isLeapYear y then 29 else 28)
  else if m = 4 || m = 6 || m = 9 || m = 11 then 30
  else 31

/-- Parses the whitespace-month-whitespace-year tail of the %d %b %Y format,
requiring the whole remaining input to be consumed as strptime does. -/
def dmyTail (l : List Char) : Option (Nat × Nat) :=
  let ws₁ := l.takeWhile isPyWhitespace
  if ws₁.isEmpty then none
  else
    match l.drop ws₁.length with
    | a :: b :: c :: rest =>
      if a.isAlpha && b.isAlpha && c.isAlpha then
        match monthAbbrs.indexOf? (String.mk [a.toLower, b.toLower, c.toLower]) with
        | some idx =>
          let ws₂ := rest.takeWhile isPyWhitespace
          if ws₂.isEmpty then none
          else
            match rest.drop ws₂.length with
            | y₁ :: y₂ :: y₃ :: y₄ :: tail =>
              if y₁.isDigit && y₂.isDigit && y₃.isDigit && y₄.isDigit && tail.isEmpty then
                some (idx + 1, digitsToNat [y₁, y₂, y₃, y₄])
              else none
            | _ => none
        | none => none
      else none
    | _ => none

/-- Day digits attempt for %d: the given digit candidates must all be digits
and denote a value between 1 and 31, then the tail must parse. -/
def dmyFrom (dd rest : List Char) : Option (Nat × Nat × Nat) :=
  if dd.all Char.isDigit && ¬ dd.isEmpty then
    let day := digitsToNat dd
    if 1 ≤ day && day ≤ 31 then
      (dmyTail rest).map (fun (p : Nat × Nat) => (day, p.1, p.2))
    else none
  else none

/-- Day-month-year triple of the %d %b %Y format with greedy day digits. -/
def strptimeDBYTriple (l : List Char) : Option (Nat × Nat × Nat) :=
  match dmyFrom (l.take 2) (l.drop 2) with
  | some r => some r
  | none => dmyFrom (l.take 1) (l.drop 1)

/-- Final date validation as the datetime constructor performs it. -/
def mkValidDate (t : Option (Nat × Nat × Nat)) : Option PyDate :=
  match t with
  | some (d, m, y) =>
    if 1 ≤ y && d ≤ daysInMonth y m then some ⟨y, m, d⟩ else none
  | none => none

/-- Models datetime.strptime with format %d %b %Y followed by .date(). -/
def strptimeDBY (s : String) : Option PyDate :=
  mkValidDate (strptimeDBYTriple s.toList)

/-- Models datetime.strptime with format %a %d %b %Y followed by .date():
an abbreviated weekday name (not checked for consistency with the date),
whitespace, then the day-month-year part. -/
def strptimeAWdBY (s : String) : Option PyDate :=
  match s.toList with
  | a :: b :: c :: rest =>
    if a.isAlpha && b.isAlpha && c.isAlpha &&
       weekdayAbbrs.contains (String.mk [a.toLower, b.toLower, c.toLower]) then
      let ws := rest.takeWhile isPyWhitespace
      if ws.isEmpty then none
      else mkValidDate (strptimeDBYTriple (rest.drop ws.length))
    else none
  | _ => none

/- ------------------------------------------------------------------ -/
/- urlparse (urllib.parse) restricted to scheme, netloc and path       -/
/- ------------------------------------------------------------------ -/

/-- Components of urllib.parse.urlparse that the fallback parser reads. -/
structure UrlParts where
  scheme : String
  netloc : String
  path : String
  deriving DecidableEq, Repr

/-- Characters allowed in a URL scheme after the leading letter. -/
def isSchemeChar (c : Char) : Bool :=
  c.isAlphanum || c = '+' || c = '-' || c = '.'

/-- Models urllib.parse.urlparse for the components the source uses: an
optional scheme (lowercased), a netloc only after a double slash, and the
path up to any query or fragment. -/
def urlparse (u : String) : UrlParts :=
  let l := u.toList
  let run := l.takeWhile isSchemeChar
  let sr : String × List Char :=
    match l.drop run.length with
    | ':' :: tail =>
      match run with
      | c :: _ => if c.isAlpha then (String.mk (run.map Char.toLower), tail) else ("", l)
      | [] => ("", l)
    | _ => ("", l)
  match sr.2 with
  | '/' :: '/' :: tail =>
    let netloc := tail.takeWhile (fun c => c ≠ '/' && c ≠ '?' && c ≠ '#')
    let path := (tail.drop netloc.length).takeWhile (fun c => c ≠ '?' && c ≠ '#')
    ⟨sr.1, String.mk netloc, String.mk path⟩
  | rest =>
    ⟨sr.1, "", String.mk (rest.takeWhile (fun c => c ≠ '?' && c ≠ '#'))⟩

/- ------------------------------------------------------------------ -/
/- The Booking model (src/app/models/booking.py)                       -/
/- ------------------------------------------------------------------ -/

/-- Models the pydantic Booking model.  Decimal fields are carried as their
literal string, HttpUrl as its string form. -/
structure Booking where
  name : String
  confirmation : String
  check_in_date : PyDate
  check_out_date : PyDate
  check_in_time : String
  check_out_time : String
  early_check_in_time : String
  early_check_in_cost : String
  breakfast_included : Bool
  cancellation_terms : String
  address : String
  city : String
  booking_date : PyDate
  what3words : String
  website : String
  amount_paid : String
  amount_total : String
  room_type : String
  deriving DecidableEq, Repr

/- ------------------------------------------------------------------ -/
/- The fallback parser (src/app/parsers/booking.py)                    -/
/- ------------------------------------------------------------------ -/

/-- Input abstraction for a raw email: the full raw text, the Date header as
the email package returns it, the flattened text that BeautifulSoup
get_text with newline separator yields for the extracted HTML part, and
the href values of the anchors soup.find_all finds, in document order. -/
structure RawEmail where
  raw : String
  dateHeader : Option String
  text : String
  anchors : List String
  deriving DecidableEq, Repr

/-- Models _extract_booking_date (src/app/parsers/booking.py lines 35-45):
the Date header parsed to a date via the parsedate oracle (the library
function parsedate_to_datetime), today when the header is missing or the
oracle yields no datetime. -/
def _extract_booking_date (parsedate : String → Option PyDate) (today : PyDate)
    (e : RawEmail) : PyDate :=
  match e.dateHeader with
  | none => today
  | some h =>
    match parsedate h with
    | some d => d
    | none => today

/-- Line list of the flattened text: non-breaking spaces replaced, lines
split, stripped, empties dropped (src/app/parsers/booking.py lines 57-60). -/
def pyLines (text : String) : List String :=
  ((splitLines text).map pyStrip).filter (· ≠ "")

/-- Text of the email after the non-breaking-space replacement at line 58. -/
def flatText (e : RawEmail) : String :=
  pyReplaceChar e.text (Char.ofNat 160) ' ' 

/-- Models lines 66-78: the guest name from the first Hello line, else the
line after a room-details line. -/
def extractName (lines : List String) : String :=
  match lines.find? (fun ln => strStartsWith ln "Hello ") with
  | some ln => pyStrip (String.mk (ln.toList.drop 5))
  | none =>
    match lines.findIdx? (fun ln => strStartsWith (pyLower ln) "room details") with
    | some i => (lines.get? (i + 1)).getD ""
    | none => ""

/-- Models lines 82-93: the line after a Booking Reference line, else the
first word-bounded 8-12 character [A-Z0-9] code of the text. -/
def extractConfirmation (lines : List String) (text : String) : String :=
  let c :=
    match lines.findIdx? (fun ln => strContains ln "Booking Reference") with
    | some i => pyStrip ((lines.get? (i + 1)).getD "")
    | none => ""
  if c ≠ "" then c
  else
    match findConfCode none text.toList with
    | some code => code
    | none => ""

/-- State of the check-in and check-out scan of lines 95-151. -/
structure CheckState where
  ciDate : Option PyDate := none
  coDate : Option PyDate := none
  ciTime : String := ""
  coTime : String := ""
  deriving DecidableEq, Repr

/-- Models the date parse at lines 106-120 for the line after index i: the
strict format first, then the loose pattern whose strptime may raise an
uncaught ValueError, then the booking date.  Returns none when no line
follows index i, in which case the Python local stays unassigned. -/
def checkDateAt (lines : List String) (i : Nat) (booking_date : PyDate) :
    Except PyErr (Option PyDate) :=
  match lines.get? (i + 1) with
  | none => .ok none
  | some next =>
    let date_str := pyStrip next
    match strptimeAWdBY date_str with
    | some d => .ok (some d)
    | none =>
      match dateRegexFind date_str.toList with
      | some grp =>
        match strptimeDBY grp with
        | some d => .ok (some d)
        | none => .error .valueError
      | none => .ok (some booking_date)

/-- Models the time search at lines 122-128: the first of the following five
lines with a time match updates the current value. -/
def timeBelow (lines : List String) (i : Nat) (current : String) : String :=
  match (((lines.drop (i + 1)).take 5).filterMap (fun l => findTime none l.toList)).head? with
  | some t => t
  | none => current

/-- One iteration of the check-in and check-out loop at lines 103-151 for the
line at index i. -/
def checkStep (lines : List String) (bd : PyDate) (i : Nat) (ln : String)
    (st : CheckState) : Except PyErr CheckState := do
  let st ←
    if strStartsWith (pyLower ln) "check in" then do
      let d? ← checkDateAt lines i bd
      pure { st with
        ciDate := match d? with | some d => some d | none => st.ciDate
        ciTime := timeBelow lines i st.ciTime }
    else pure st
  if strStartsWith (pyLower ln) "check out" then do
    let d? ← checkDateAt lines i bd
    pure { st with
      coDate := match d? with | some d => some d | none => st.coDate
      coTime := timeBelow lines i st.coTime }
  else pure st

/-- The whole check-in and check-out scan over the enumerated lines. -/
def checkScan (lines : List String) (bd : PyDate) : Except PyErr CheckState :=
  lines.enum.foldlM (fun st (p : Nat × String) => checkStep lines bd p.1 p.2 st) {}

/-- Models lines 157-169: early check-in cost from the first Early Check In
line and the regular check-in time as the early check-in time. -/
def extractEarly (lines : List String) (ciTime : String) : String × String :=
  match lines.find? (fun ln => strContains ln "Early Check In") with
  | some ln => ((findAmount ln.toList).getD "0", ciTime)
  | none => ("0", "")

/-- Models lines 171-176: breakfast flagged when the text mentions breakfast
together with an inclusion word. -/
def extractBreakfast (text : String) : Bool :=
  strContainsCI text "breakfast" &&
    (strContainsCI text "includes" || strContainsCI text "included" ||
     strContainsCI text "with breakfast")

/-- Models lines 178-191: the Standard-rate sentence up to the first
terms-and-conditions end with whitespace collapsed, else the rest of the
line from the first Standard-rate occurrence, else empty. -/
def extractCancellation (text : String) : String :=
  let tl := text.toList
  let low := tl.map Char.toLower
  let pfx := "this is a standard rate booking".toList
  let sfx := "terms and conditions.".toList
  match findSubIdx low pfx with
  | none => ""
  | some p =>
    match findSubIdx (low.drop (p + pfx.length)) sfx with
    | some q =>
      pyJoin " "
        (pySplitWs (String.mk ((tl.drop p).take (pfx.length + q + sfx.length))))
    | none => pyStrip (String.mk ((tl.drop p).takeWhile (· ≠ '\n')))

/-- Models lines 197-200: the address line of the known template with
whitespace collapsed. -/
def extractAddress (lines : List String) : String :=
  match lines.find? (fun ln =>
      strContains ln "Old Marylebone Road" && strContains ln "NW1 5DZ") with
  | some ln => pyJoin " " (pySplitWs ln)
  | none => ""

/-- Models lines 230-240: the pound amount on the line after the first Total
price line (or on that line itself when it is the last). -/
def extractAmountTotal (lines : List String) : String :=
  match lines.find? (fun ln => strContains ln "Total price") with
  | some ln =>
    let idx := (lines.findIdx? (fun l => l = ln)).getD 0
    let candidate := (lines.get? (idx + 1)).getD ln
    (findAmount candidate.toList).getD "0"
  | none => "0"

/-- Models lines 243-252: the line two after the first room-details line. -/
def extractRoomType (lines : List String) : String :=
  match lines.findIdx? (fun ln => strStartsWith (pyLower ln) "room details") with
  | some i => (lines.get? (i + 2)).getD ""
  | none => ""

/-- The deduplicated, non-empty anchor href set of lines 209-210, iterated in
first-occurrence order. -/
def dedupAux (seen : List String) : List String → List String
  | [] => []
  | x :: rest =>
    if seen.contains x then dedupAux seen rest
    else x :: dedupAux (x :: seen) rest

/-- Parsed anchor links whose netloc mentions premierinn.com, models lines
212-216. -/
def piCandidates (anchors : List String) : List UrlParts :=
  (((dedupAux [] anchors).filter (· ≠ "")).map urlparse).filter
    (fun p => strContains p.netloc "premierinn.com")

/-- Models lines 218-223: the root of the premierinn.com link with the
shortest path, or the constant root when no such link exists. -/
def websiteOf (anchors : List String) : String :=
  match piCandidates anchors with
  | [] => "https://premierinn.com/"
  | p :: rest =>
    let best := rest.foldl (fun acc q => if q.path.length < acc.path.length then q else acc) p
    best.scheme ++ "://" ++ best.netloc ++ "/"

/-- Models parse_booking (src/app/parsers/booking.py lines 52-274), the
regex/BeautifulSoup fallback parser.  The parsedate oracle stands for
email.utils.parsedate_to_datetime and today for date.today; the result is
an exception when the loose date parse raises inside the except block. -/
def parse_booking (parsedate : String → Option PyDate) (today : PyDate)
    (e : RawEmail) : Except PyErr Booking := do
  let text := flatText e
  let lines := pyLines text
  let booking_date := _extract_booking_date parsedate today e
  let st ← checkScan lines booking_date
  let early := extractEarly lines st.ciTime
  pure
    { name := extractName lines
      confirmation := extractConfirmation lines text
      check_in_date := st.ciDate.getD booking_date
      check_out_date := st.coDate.getD booking_date
      check_in_time := st.ciTime
      check_out_time := st.coTime
      early_check_in_time := early.2
      early_check_in_cost := early.1
      breakfast_included := extractBreakfast text
      cancellation_terms := extractCancellation text
      address := extractAddress lines
      city := "London"
      booking_date := booking_date
      what3words := (findW3W text.toList).getD ""
      website := websiteOf e.anchors
      amount_paid := "0"
      amount_total := extractAmountTotal lines
      room_type := extractRoomType lines }

/- ------------------------------------------------------------------ -/
/- JSON values and the LLM extractor (src/app/llm/extractors.py)       -/
/- ------------------------------------------------------------------ -/

/-- JSON values; numbers are carried as their literal token. -/
inductive Json where
  | null
  | boolean (b : Bool)
  | num (lit : String)
  | str (s : String)
  | arr (elems : List Json)
  | obj (fields : List (String × Json))

/-- Object lookup keeping the last duplicate key, as json.loads does. -/
def jLookup (kvs : List (String × Json)) (k : String) : Option Json :=
  (kvs.reverse.find? (fun kv => kv.1 = k)).map (·.2)

/-- String coercion for a pydantic str field. -/
def asStr : Option Json → Option String
  | some (.str s) => some s
  | _ => none

/-- Boolean coercion for a pydantic bool field. -/
def asBool : Option Json → Option Bool
  | some (.boolean b) => some b
  | _ => none

/-- Canonical ISO date parse for a pydantic date field. -/
def parseIsoDate (s : String) : Option PyDate :=
  match s.toList with
  | [y₁, y₂, y₃, y₄, '-', m₁, m₂, '-', d₁, d₂] =>
    if [y₁, y₂, y₃, y₄, m₁, m₂, d₁, d₂].all Char.isDigit then
      let y := digitsToNat [y₁, y₂, y₃, y₄]
      let m := digitsToNat [m₁, m₂]
      let d := digitsToNat [d₁, d₂]
      if 1 ≤ y && 1 ≤ m && m ≤ 12 && 1 ≤ d && d ≤ daysInMonth y m then
        some ⟨y, m, d⟩
      else none
    else none
  | _ => none

/-- Date coercion for a pydantic date field (from an ISO string). -/
def asDate : Option Json → Option PyDate
  | some (.str s) => parseIsoDate s
  | _ => none

/-- Plain decimal literal test: optional sign, digits with at most one dot. -/
def isDecimalLit (s : String) : Bool :=
  let l := match s.toList with
    | '+' :: r => r
    | '-' :: r => r
    | r => r
  let intPart := l.takeWhile Char.isDigit
  match l.drop intPart.length with
  | [] => ¬ intPart.isEmpty
  | '.' :: frac => frac.all Char.isDigit && (¬ intPart.isEmpty || ¬ frac.isEmpty)
  | _ => false

/-- Decimal coercion for a pydantic Decimal field, from a JSON number or a
numeric string; the literal is kept. -/
def asDecimal : Option Json → Option String
  | some (.num lit) => some lit
  | some (.str s) => if isDecimalLit s then some s else none
  | _ => none

/-- Validity of a pydantic HttpUrl string: an http or https scheme and a
non-empty host. -/
def isHttpUrl (s : String) : Bool :=
  let p := urlparse s
  (p.scheme = "http" || p.scheme = "https") && p.netloc ≠ ""

/-- Url coercion for the pydantic HttpUrl field. -/
def asUrl : Option Json → Option String
  | some (.str s) => if isHttpUrl s then some s else none
  | _ => none

/-- Field-wise well-formedness of a Booking JSON object under pydantic
validation: every field is required with its declared type. -/
def bookingFieldsOk (kvs : List (String × Json)) : Bool :=
  (asStr (jLookup kvs "name")).isSome &&
  (asStr (jLookup kvs "confirmation")).isSome &&
  (asDate (jLookup kvs "check_in_date")).isSome &&
  (asDate (jLookup kvs "check_out_date")).isSome &&
  (asStr (jLookup kvs "check_in_time")).isSome &&
  (asStr (jLookup kvs "check_out_time")).isSome &&
  (asStr (jLookup kvs "early_check_in_time")).isSome &&
  (asDecimal (jLookup kvs "early_check_in_cost")).isSome &&
  (asBool (jLookup kvs "breakfast_included")).isSome &&
  (asStr (jLookup kvs "cancellation_terms")).isSome &&
  (asStr (jLookup kvs "address")).isSome &&
  (asStr (jLookup kvs "city")).isSome &&
  (asDate (jLookup kvs "booking_date")).isSome &&
  (asStr (jLookup kvs "what3words")).isSome &&
  (asUrl (jLookup kvs "website")).isSome &&
  (asDecimal (jLookup kvs "amount_paid")).isSome &&
  (asDecimal (jLookup kvs "amount_total")).isSome &&
  (asStr (jLookup kvs "room_type")).isSome

/-- The Booking value read off a field-wise well-formed object. -/
def bookingOfFields (kvs : List (String × Json)) : Booking :=
  { name := (asStr (jLookup kvs "name")).getD ""
    confirmation := (asStr (jLookup kvs "confirmation")).getD ""
    check_in_date := (asDate (jLookup kvs "check_in_date")).getD ⟨1, 1, 1⟩
    check_out_date := (asDate (jLookup kvs "check_out_date")).getD ⟨1, 1, 1⟩
    check_in_time := (asStr (jLookup kvs "check_in_time")).getD ""
    check_out_time := (asStr (jLookup kvs "check_out_time")).getD ""
    early_check_in_time := (asStr (jLookup kvs "early_check_in_time")).getD ""
    early_check_in_cost := (asDecimal (jLookup kvs "early_check_in_cost")).getD ""
    breakfast_included := (asBool (jLookup kvs "breakfast_included")).getD false
    cancellation_terms := (asStr (jLookup kvs "cancellation_terms")).getD ""
    address := (asStr (jLookup kvs "address")).getD ""
    city := (asStr (jLookup kvs "city")).getD ""
    booking_date := (asDate (jLookup kvs "booking_date")).getD ⟨1, 1, 1⟩
    what3words := (asStr (jLookup kvs "what3words")).getD ""
    website := (asUrl (jLookup kvs "website")).getD ""
    amount_paid := (asDecimal (jLookup kvs "amount_paid")).getD ""
    amount_total := (asDecimal (jLookup kvs "amount_total")).getD ""
    room_type := (asStr (jLookup kvs "room_type")).getD "" }

/-- Models pydantic validation of the Booking model on a JSON value: every
field is required with its declared type, extra keys are ignored. -/
def validateBooking (j : Json) : Option Booking :=
  match j with
  | .obj kvs => if bookingFieldsOk kvs then some (bookingOfFields kvs) else none
  | _ => none

/-- Models the pydantic ExtractionResult model (src/app/models/booking.py
lines 28-30): a kind string and an optional Booking. -/
structure ExtractionResult where
  kind : String
  booking : Option Booking
  deriving DecidableEq, Repr

/-- Models pydantic validation of ExtractionResult on a JSON value: kind must
be a string, booking must be present and either null or a valid Booking. -/
def validateExtractionResult (j : Json) : Option ExtractionResult :=
  match j with
  | .obj kvs => do
    let kind ← asStr (jLookup kvs "kind")
    match jLookup kvs "booking" with
    | some .null => some ⟨kind, none⟩
    | some bj => (validateBooking bj).map (fun b => ⟨kind, some b⟩)
    | none => none
  | _ => none

/-- Models the JSON schema pydantic emits for ExtractionResult via
model_json_schema, as passed to the tool parameters. -/
def extractionResultJsonSchema : Json :=
  let dateField := fun (title : String) =>
    Json.obj [("format", Json.str "date"), ("title", Json.str title),
              ("type", Json.str "string")]
  let strField := fun (title : String) =>
    Json.obj [("title", Json.str title), ("type", Json.str "string")]
  let decField := fun (title : String) =>
    Json.obj [("anyOf", Json.arr [Json.obj [("type", Json.str "number")],
                                  Json.obj [("type", Json.str "string")]]),
              ("title", Json.str title)]
  let bookingSchema :=
    Json.obj
      [("properties", Json.obj
        [("name", strField "Name"),
         ("confirmation", strField "Confirmation"),
         ("check_in_date", dateField "Check In Date"),
         ("check_out_date", dateField "Check Out Date"),
         ("check_in_time", strField "Check In Time"),
         ("check_out_time", strField "Check Out Time"),
         ("early_check_in_time", strField "Early Check In Time"),
         ("early_check_in_cost", decField "Early Check In Cost"),
         ("breakfast_included", Json.obj [("title", Json.str "Breakfast Included"),
                                          ("type", Json.str "boolean")]),
         ("cancellation_terms", strField "Cancellation Terms"),
         ("address", strField "Address"),
         ("city", strField "City"),
         ("booking_date", dateField "Booking Date"),
         ("what3words", strField "What3Words"),
         ("website", Json.obj [("format", Json.str "uri"),
                               ("maxLength", Json.num "2083"),
                               ("minLength", Json.num "1"),
                               ("title", Json.str "Website"),
                               ("type", Json.str "string")]),
         ("amount_paid", decField "Amount Paid"),
         ("amount_total", decField "Amount Total"),
         ("room_type", strField "Room Type")]),
       ("required", Json.arr
        ([ "name", "confirmation", "check_in_date", "check_out_date",
           "check_in_time", "check_out_time", "early_check_in_time",
           "early_check_in_cost", "breakfast_included", "cancellation_terms",
           "address", "city", "booking_date", "what3words", "website",
           "amount_paid", "amount_total", "room_type" ].map Json.str)),
       ("title", Json.str "Booking"),
       ("type", Json.str "object")]
  Json.obj
    [("$defs", Json.obj [("Booking", bookingSchema)]),
     ("properties", Json.obj
      [("kind", strField "Kind"),
       ("booking", Json.obj
        [("anyOf", Json.arr [Json.obj [("$ref", Json.str "#/$defs/Booking")],
                             Json.obj [("type", Json.str "null")]])])]),
     ("required", Json.arr [Json.str "kind", Json.str "booking"]),
     ("title", Json.str "ExtractionResult"),
     ("type", Json.str "object")]

/-- The function part of the extract_booking tool. -/
structure ToolFunctionSpec where
  name : String
  description : String
  parameters : Json

/-- An OpenAI tool specification. -/
structure ToolSpec where
  type : String
  function : ToolFunctionSpec

/-- Models get_extract_booking_tool (src/app/models/booking.py lines 33-41). -/
def get_extract_booking_tool : ToolSpec :=
  { type := "function"
    function :=
      { name := "extract_booking"
        description := "Extracts booking information from an email."
        parameters := extractionResultJsonSchema } }

/-- A chat message of the request. -/
structure ChatMessage where
  role : String
  content : String
  deriving DecidableEq, Repr

/-- The chat completion request llm_extract_email builds. -/
structure ChatRequest where
  model : String
  messages : List ChatMessage
  tools : List ToolSpec
  tool_choice : String
  temperature : Int

/-- The function part of a tool call in the model response; arguments holds
the json.loads outcome of the arguments string, none when it is not JSON. -/
structure ToolFunctionCall where
  arguments : Option Json

/-- A tool call of the model response. -/
structure RespToolCall where
  function : ToolFunctionCall

/-- The message of a response choice. -/
structure RespMessage where
  tool_calls : Option (List RespToolCall)

/-- A choice of the model response. -/
structure RespChoice where
  message : RespMessage

/-- The model response. -/
structure ChatResponse where
  choices : List RespChoice

/-- The fixed system prompt of llm_extract_email after .strip(). -/
def llmSystemPrompt : String :=
  "You are an email parsing assistant.\n\nThe user will send you RAW email text (headers, HTML, bodies, weird formatting)\nrepresenting either a booking (hotel, car, plane, train, tour, etc) OR a marketing email\n\nYour job:\n1. Determine if this is a BOOKING email or MARKETING email.\n2. If booking, extract all booking details.\n3. If marketing, set kind=\"marketing\" and booking=null.\n\nOUTPUT:\nUse the extract_booking tool."

/-- The request llm_extract_email sends for a given email text
(src/app/llm/extractors.py lines 28-37). -/
def llmRequest (email_text : String) : ChatRequest :=
  { model := "gpt-4.1-mini"
    messages := [⟨"system", llmSystemPrompt⟩, ⟨"user", email_text⟩]
    tools := [get_extract_booking_tool]
    tool_choice := "auto"
    temperature := 0 }

/-- Models llm_extract_email (src/app/llm/extractors.py lines 11-44) against
a respond oracle for the OpenAI client, which may itself raise.  The first
tool call of the first choice is read (IndexError on a missing choice or
tool call, TypeError when tool_calls is None), its arguments are parsed
and validated into an ExtractionResult. -/
def llm_extract_email (respond : ChatRequest → Except PyErr ChatResponse)
    (email_text : String) : Except PyErr ExtractionResult := do
  let response ← respond (llmRequest email_text)
  match response.choices with
  | [] => .error .indexError
  | choice :: _ =>
    match choice.message.tool_calls with
    | none => .error .typeError
    | some [] => .error .indexError
    | some (tc :: _) =>
      match tc.function.arguments with
      | none => .error .valueError
      | some args =>
        match validateExtractionResult args with
        | some r => .ok r
        | none => .error .validationError

/-- The first tool call of a response, as the source subscripts it. -/
def firstToolCall (r : ChatResponse) : Option RespToolCall :=
  match r.choices with
  | [] => none
  | c :: _ =>
    match c.message.tool_calls with
    | none => none
    | some [] => none
    | some (tc :: _) => some tc

/- ------------------------------------------------------------------ -/
/- parse_email (imported by src/app/app.py, absent from the sources)   -/
/- ------------------------------------------------------------------ -/

/-- Modelled from the spec: parse_email, the parsing entry point the S3
lambda handler imports from app.parsers.booking, has no definition in the
source tree (only its import and its tests exist).  Per the spec it is an
LLM-backed email-to-structured-data extractor with the regex/HTML fallback
parser: it extracts via llm_extract_email and, whenever that path fails
with any exception, applies parse_booking instead; a successful extraction
without a booking (a marketing email) raises the ValueError the lambda
handler treats as a non-booking email. -/
def parse_email (respond : ChatRequest → Except PyErr ChatResponse)
    (parsedate : String → Option PyDate) (today : PyDate) (e : RawEmail) :
    Except PyErr Booking :=
  match llm_extract_email respond e.raw with
  | .ok r =>
    match r.booking with
    | some b => .ok b
    | none => .error .valueError
  | .error _ => parse_booking parsedate today e

/- ------------------------------------------------------------------ -/
/- The S3 lambda handler (src/app/app.py lines 134-195)                -/
/- ------------------------------------------------------------------ -/

/-- The s3 part of an event record. -/
structure S3ObjectRef where
  bucket : String
  key : String
  deriving DecidableEq, Repr

/-- An event record: the two event-source spellings the handler reads and
the optional s3 payload (reading it raises KeyError when missing). -/
structure SRecord where
  eventSource : Option String := none
  eventSourceCap : Option String := none
  s3 : Option S3ObjectRef := none
  deriving DecidableEq, Repr

/-- Models line 143: record.get eventSource or record.get EventSource. -/
def recSource (r : SRecord) : Option String :=
  pyOrOpt r.eventSource r.eventSourceCap

/-- Models booking.model_dump in json mode: every Booking field as a string
entry; no id or source keys are present. -/
def dumpBooking (b : Booking) : Parsed :=
  { confirmation := some b.confirmation
    name := some b.name
    address := some b.address
    city := some b.city
    check_in_date := some (isoOfDate b.check_in_date)
    check_out_date := some (isoOfDate b.check_out_date)
    booking_date := some (isoOfDate b.booking_date)
    check_in_time := some b.check_in_time
    check_out_time := some b.check_out_time
    early_check_in_time := some b.early_check_in_time
    early_check_in_cost := some b.early_check_in_cost
    amount_paid := some b.amount_paid
    amount_total := some b.amount_total
    breakfast_included := some b.breakfast_included
    cancellation_terms := some b.cancellation_terms
    what3words := some b.what3words
    room_type := some b.room_type
    website := some b.website
    id := none
    source_bucket := none
    source_key := none }

/-- Models lines 171-181: the dict dump plus setdefault of the source bucket
and key and the id fallback. -/
def finalizeParsed (b : Booking) (bucket key : String) : Parsed :=
  let p := dumpBooking b
  let p := match p.source_bucket with
    | some _ => p
    | none => { p with source_bucket := some bucket }
  let p := match p.source_key with
    | some _ => p
    | none => { p with source_key := some key }
  match p.id with
  | some _ => p
  | none => { p with id := some (pyReplaceChar key '/' '_') }

/-- What the handler records while processing: the S3 fetches it attempts and
the parsed dicts it hands to store_result. -/
structure HandlerTrace where
  fetches : List (String × String)
  stores : List Parsed
  deriving DecidableEq, Repr

/-- The handler return value. -/
structure LambdaResponse where
  statusCode : Nat
  body : String
  deriving DecidableEq, Repr

/-- Models one iteration of the record loop (lines 142-193).  The fetch
oracle stands for s3.get_object followed by reading the body; its error is
the ClientError the handler catches at line 161.  Any error of the parse
function is caught at lines 183-190 and the record is skipped.  A record
claiming the aws:s3 source without an s3 payload raises KeyError. -/
def processRecord (fetch : String → String → Except Unit RawEmail)
    (parseFn : RawEmail → Except PyErr Booking) (r : SRecord) :
    Except PyErr (List (String × String) × List Parsed) :=
  if recSource r ≠ some "aws:s3" then .ok ([], [])
  else
    match r.s3 with
    | none => .error .keyError
    | some info =>
      let key := unquote_plus info.key
      match fetch info.bucket key with
      | .error _ => .ok ([(info.bucket, key)], [])
      | .ok raw =>
        match parseFn raw with
        | .error _ => .ok ([(info.bucket, key)], [])
        | .ok booking => .ok ([(info.bucket, key)], [finalizeParsed booking info.bucket key])

/-- The record loop over all records, concatenating the traces. -/
def runRecords (fetch : String → String → Except Unit RawEmail)
    (parseFn : RawEmail → Except PyErr Booking) :
    List SRecord → Except PyErr HandlerTrace
  | [] => .ok ⟨[], []⟩
  | r :: rest => do
    let pr ← processRecord fetch parseFn r
    let t ← runRecords fetch parseFn rest
    .ok ⟨pr.1 ++ t.fetches, pr.2 ++ t.stores⟩

/-- Models lambda_handler (src/app/app.py lines 134-195): the record loop
followed by the fixed success response. -/
def lambda_handler (fetch : String → String → Except Unit RawEmail)
    (parseFn : RawEmail → Except PyErr Booking) (records : List SRecord) :
    Except PyErr (HandlerTrace × LambdaResponse) :=
  (runRecords fetch parseFn records).map (fun t => (t, ⟨200, "OK"⟩))

/- ------------------------------------------------------------------ -/
/- DynamoDB read side (src/app/services/dynamodb_service.py)           -/
/- ------------------------------------------------------------------ -/

/-- Values of a DynamoDB item as boto3 returns them: native strings, booleans
and nulls, numbers as ints or float literals, and low-level type-descriptor
dicts. -/
inductive DVal where
  | s (v : String)
  | i (v : Int)
  | f (lit : String)
  | b (v : Bool)
  | null
  | d (kvs : List (String × DVal))

/-- An item of the bookings table on the read side. -/
def DbItem : Type := List (String × DVal)

/-- First-key lookup in an item (Python dict keys are unique). -/
def dLookup (kvs : List (String × DVal)) (k : String) : Option DVal :=
  (kvs.find? (fun kv => kv.1 = k)).map (·.2)

/-- Models Python int over a numeric string: optional sign and digits, after
stripping whitespace. -/
def pyIntParse (s : String) : Option Int :=
  match (pyStrip s).toList with
  | '-' :: r =>
    if ¬ r.isEmpty && r.all Char.isDigit then some (-(digitsToNat r : Int)) else none
  | '+' :: r =>
    if ¬ r.isEmpty && r.all Char.isDigit then some ((digitsToNat r : Int)) else none
  | r =>
    if ¬ r.isEmpty && r.all Char.isDigit then some ((digitsToNat r : Int)) else none

/-- Acceptance test of Python float over a numeric string (common decimal and
exponent forms; the special words are not modelled). -/
def isFloatLit (s : String) : Bool :=
  let l := match (pyStrip s).toList with
    | '+' :: r => r
    | '-' :: r => r
    | r => r
  let mant := l.takeWhile (fun c => c.isDigit || c = '.')
  let rest := l.drop mant.length
  let digitsOk := ¬ (mant.filter Char.isDigit).isEmpty &&
    (mant.filter (· = '.')).length ≤ 1
  let expOk := match rest with
    | [] => true
    | 'e' :: r =>
      let r₂ := match r with | '+' :: t => t | '-' :: t => t | t => t
      ¬ r₂.isEmpty && r₂.all Char.isDigit
    | 'E' :: r =>
      let r₂ := match r with | '+' :: t => t | '-' :: t => t | t => t
      ¬ r₂.isEmpty && r₂.all Char.isDigit
    | _ => false
  digitsOk && expOk

/-- Conversion of one value, models the body of _convert_dynamodb_item
(src/app/services/dynamodb_service.py lines 122-145): low-level type
descriptors are unwrapped, native values pass through. -/
def convertVal (v : DVal) : DVal :=
  match v with
  | .d kvs =>
    match dLookup kvs "S" with
    | some sv => sv
    | none =>
      match dLookup kvs "N" with
      | some (.s num) =>
        if strContains num "." then (if isFloatLit num then .f num else .s num)
        else
          match pyIntParse num with
          | some z => .i z
          | none => .s num
      | some other => other
      | none =>
        match dLookup kvs "BOOL" with
        | some bv => bv
        | none =>
          match dLookup kvs "NULL" with
          | some _ => .null
          | none => .d kvs
  | x => x

/-- Models DynamoDBService._convert_dynamodb_item over a whole item. -/
def DynamoDBService._convert_dynamodb_item (item : DbItem) : DbItem :=
  item.map (fun kv => (kv.1, convertVal kv.2))

/-- The read-side bookings table, keyed on the confirmation attribute. -/
def ReadTable : Type := String → Option DbItem

/-- Models DynamoDBService.get_booking_by_id
(src/app/services/dynamodb_service.py lines 20-44): the item under the
key, converted, or None. -/
def DynamoDBService.get_booking_by_id (table : ReadTable) (confirmation : String) :
    Option DbItem :=
  (table confirmation).map DynamoDBService._convert_dynamodb_item

/-- String order as DynamoDB compares string attributes (and Python compares
str); agrees with byte order on ASCII data such as ISO dates. -/
def strLE (a b : String) : Bool :=
  compare a b ≠ Ordering.gt

/-- One comparison condition of the scan FilterExpression. -/
def condGE (field lo : String) (item : DbItem) : Bool :=
  match dLookup item field with
  | some (.s v) => strLE lo v
  | _ => false

/-- The other comparison condition of the scan FilterExpression. -/
def condLE (field hi : String) (item : DbItem) : Bool :=
  match dLookup item field with
  | some (.s v) => strLE v hi
  | _ => false

/-- Models lines 72-84: the filter conditions built from truthy bounds. -/
def dateFilterConds (start? end? : Option String) (field : String) :
    List (DbItem → Bool) :=
  let c₁ := match start? with
    | some s => if s ≠ "" then [condGE field s] else []
    | none => []
  let c₂ := match end? with
    | some e => if e ≠ "" then [condLE field e] else []
    | none => []
  c₁ ++ c₂

/-- Conjunction of the filter conditions; with no conditions no
FilterExpression is set and every item passes, which coincides. -/
def passFilter (conds : List (DbItem → Bool)) (it : DbItem) : Bool :=
  conds.all (fun c => c it)

/-- One scan call: a page of at most pageSize items starting at startIdx,
filtered, together with the LastEvaluatedKey when items remain. -/
def scanPage (items : List DbItem) (pass : DbItem → Bool) (pageSize startIdx : Nat) :
    List DbItem × Option Nat :=
  (((items.drop startIdx).take pageSize).filter pass,
   if startIdx + pageSize < items.length then some (startIdx + pageSize) else none)

/-- The pagination loop of lines 94-102, following LastEvaluatedKey until
exhausted; fuel bounds the recursion and is chosen large enough. -/
def scanLoop (items : List DbItem) (pass : DbItem → Bool) (pageSize : Nat) :
    Nat → Nat → List DbItem
  | 0, _ => []
  | fuel + 1, startIdx =>
    let pr := scanPage items pass pageSize startIdx
    match pr.2 with
    | none => pr.1
    | some nxt => pr.1 ++ scanLoop items pass pageSize fuel nxt

/-- Models DynamoDBService.get_bookings_by_date_range
(src/app/services/dynamodb_service.py lines 46-112) over the table scanned
as a list of items in scan order with the given page size. -/
def DynamoDBService.get_bookings_by_date_range (items : List DbItem)
    (pageSize : Nat) (start? end? : Option String) (field : String) :
    List DbItem :=
  let conds := dateFilterConds start? end? field
  (scanLoop items (passFilter conds) pageSize (items.length + 1) 0).map
    DynamoDBService._convert_dynamodb_item

/- ------------------------------------------------------------------ -/
/- The bookings router (src/app/routers/bookings.py)                   -/
/- ------------------------------------------------------------------ -/

/-- Response schema of the API (src/app/schemas/booking.py): confirmation is
required, every other field is optional with default None. -/
structure BookingResponse where
  confirmation : String
  name : Option String := none
  check_in_date : Option String := none
  check_out_date : Option String := none
  check_in_time : Option String := none
  check_out_time : Option String := none
  early_check_in_time : Option String := none
  early_check_in_cost : Option String := none
  breakfast_included : Option Bool := none
  cancellation_terms : Option String := none
  address : Option String := none
  city : Option String := none
  booking_date : Option String := none
  what3words : Option String := none
  website : Option String := none
  amount_paid : Option String := none
  amount_total : Option String := none
  room_type : Option String := none
  source_bucket : Option String := none
  source_key : Option String := none
  created_at : Option String := none
  updated_at : Option String := none
  deriving DecidableEq, Repr

/-- Reading of an optional string field under pydantic validation: absent or
null becomes None, a string passes, any other value fails. -/
def optStrField (item : DbItem) (k : String) : Option (Option String) :=
  match dLookup item k with
  | none => some none
  | some .null => some none
  | some (.s v) => some (some v)
  | some _ => none

/-- Reading of the optional boolean field under pydantic validation. -/
def optBoolField (item : DbItem) (k : String) : Option (Option Bool) :=
  match dLookup item k with
  | none => some none
  | some .null => some none
  | some (.b v) => some (some v)
  | some _ => none

/-- Field-wise well-formedness of an item dict under BookingResponse
validation: the required confirmation string plus the optional fields;
extra keys are ignored. -/
def responseFieldsOk (item : DbItem) : Bool :=
  (match dLookup item "confirmation" with
   | some (.s _) => true
   | _ => false) &&
  (optStrField item "name").isSome &&
  (optStrField item "check_in_date").isSome &&
  (optStrField item "check_out_date").isSome &&
  (optStrField item "check_in_time").isSome &&
  (optStrField item "check_out_time").isSome &&
  (optStrField item "early_check_in_time").isSome &&
  (optStrField item "early_check_in_cost").isSome &&
  (optBoolField item "breakfast_included").isSome &&
  (optStrField item "cancellation_terms").isSome &&
  (optStrField item "address").isSome &&
  (optStrField item "city").isSome &&
  (optStrField item "booking_date").isSome &&
  (optStrField item "what3words").isSome &&
  (optStrField item "website").isSome &&
  (optStrField item "amount_paid").isSome &&
  (optStrField item "amount_total").isSome &&
  (optStrField item "room_type").isSome &&
  (optStrField item "source_bucket").isSome &&
  (optStrField item "source_key").isSome &&
  (optStrField item "created_at").isSome &&
  (optStrField item "updated_at").isSome

/-- The BookingResponse value read off a well-formed item dict. -/
def responseOfItem (item : DbItem) : BookingResponse :=
  { confirmation :=
      (match dLookup item "confirmation" with
       | some (.s v) => some v
       | _ => none).getD ""
    name := (optStrField item "name").getD none
    check_in_date := (optStrField item "check_in_date").getD none
    check_out_date := (optStrField item "check_out_date").getD none
    check_in_time := (optStrField item "check_in_time").getD none
    check_out_time := (optStrField item "check_out_time").getD none
    early_check_in_time := (optStrField item "early_check_in_time").getD none
    early_check_in_cost := (optStrField item "early_check_in_cost").getD none
    breakfast_included := (optBoolField item "breakfast_included").getD none
    cancellation_terms := (optStrField item "cancellation_terms").getD none
    address := (optStrField item "address").getD none
    city := (optStrField item "city").getD none
    booking_date := (optStrField item "booking_date").getD none
    what3words := (optStrField item "what3words").getD none
    website := (optStrField item "website").getD none
    amount_paid := (optStrField item "amount_paid").getD none
    amount_total := (optStrField item "amount_total").getD none
    room_type := (optStrField item "room_type").getD none
    source_bucket := (optStrField item "source_bucket").getD none
    source_key := (optStrField item "source_key").getD none
    created_at := (optStrField item "created_at").getD none
    updated_at := (optStrField item "updated_at").getD none }

/-- Models pydantic validation of BookingResponse over an item dict. -/
def validateBookingResponse (item : DbItem) : Option BookingResponse :=
  if responseFieldsOk item then some (responseOfItem item) else none

/-- Errors of the route: an HTTPException with status and detail, or a
pydantic validation error while building the response model. -/
inductive RouteErr where
  | http (status : Nat) (detail : String)
  | validationError
  deriving DecidableEq, Repr

/-- A single-quote character, used in the 404 detail message. -/
def sQuote : String := String.singleton (Char.ofNat 39)

/-- The 404 detail message of the route. -/
def notFoundDetail (confirmation : String) : String :=
  "Booking with confirmation " ++ sQuote ++ confirmation ++ sQuote ++ " not found"

/-- Models the route get_booking_by_id (src/app/routers/bookings.py lines
14-34): a falsy lookup result (None, or an empty dict) raises the 404
HTTPException, anything else is validated into a BookingResponse. -/
def get_booking_by_id (table : ReadTable) (confirmation : String) :
    Except RouteErr BookingResponse :=
  match DynamoDBService.get_booking_by_id table confirmation with
  | none => .error (.http 404 (notFoundDetail confirmation))
  | some [] => .error (.http 404 (notFoundDetail confirmation))
  | some item =>
    match validateBookingResponse item with
    | some r => .ok r
    | none => .error .validationError

/- ------------------------------------------------------------------ -/
/- Secrets lookup (src/app/llm/client.py)                              -/
/- ------------------------------------------------------------------ -/

/-- Outcome of the Secrets Manager get_secret_value call: a ClientError, or a
response whose SecretString may be missing (reading it raises the KeyError
the source catches). -/
inductive SecretFetch where
  | clientError
  | ok (secretString : Option String)

/-- The Secrets Manager half of get_openai_api_key (src/app/llm/client.py
lines 15-26): fetch the secret, parse its JSON, read api_key with dict.get;
ClientError, JSON decode failure and KeyError all yield None, while calling
get on a non-dict JSON value raises an uncaught AttributeError. -/
def getKeyFromSecretsManager (env : String → Option String)
    (fetch : String → SecretFetch) (jparse : String → Option Json) :
    Except PyErr (Option Json) :=
  match env "OPENAI_API_KEY_SECRET_ARN" with
  | some arn =>
    if arn ≠ "" then
      match fetch arn with
      | .clientError => .ok none
      | .ok none => .ok none
      | .ok (some body) =>
        match jparse body with
        | none => .ok none
        | some (.obj kvs) =>
          match jLookup kvs "api_key" with
          | some Json.null => .ok none
          | some v => .ok (some v)
          | none => .ok none
        | some _ => .error .attributeError
    else .ok none
  | none => .ok none

/-- Models get_openai_api_key (src/app/llm/client.py lines 7-26): the
environment variable when truthy, else the Secrets Manager path. -/
def get_openai_api_key (env : String → Option String)
    (fetch : String → SecretFetch) (jparse : String → Option Json) :
    Except PyErr (Option Json) :=
  match env "OPENAI_API_KEY" with
  | some k =>
    if k ≠ "" then .ok (some (.str k))
    else getKeyFromSecretsManager env fetch jparse
  | none => getKeyFromSecretsManager env fetch jparse

/-- Fetches a record contributes to the handler trace (empty on a raised
KeyError, which aborts the handler anyway). -/
def recFetches (fetch : String → String → Except Unit RawEmail)
    (parseFn : RawEmail → Except PyErr Booking) (r : SRecord) :
    List (String × String) :=
  match processRecord fetch parseFn r with
  | .ok pr => pr.1
  | .error _ => []

/-- Stores a record contributes to the handler trace. -/
def recStores (fetch : String → String → Except Unit RawEmail)
    (parseFn : RawEmail → Except PyErr Booking) (r : SRecord) :
    List Parsed :=
  match processRecord fetch parseFn r with
  | .ok pr => pr.2
  | .error _ => []

/-- The response-processing tail of llm_extract_email (lines 39-44 of
src/app/llm/extractors.py) as a function of the response. -/
def extractFromResponse (resp : ChatResponse) : Except PyErr ExtractionResult :=
  match resp.choices with
  | [] => .error .indexError
  | choice :: _ =>
    match choice.message.tool_calls with
    | none => .error .typeError
    | some [] => .error .indexError
    | some (tc :: _) =>
      match tc.function.arguments with
      | none => .error .valueError
      | some args =>
        match validateExtractionResult args with
        | some r => .ok r
        | none => .error .validationError

/-- Range predicate of the date-range claim: the item has a string value at
the date field lying between the provided bounds (inclusive, and each
bound only constrains when present); with no bounds every item passes. -/
def inDateRange (start? end? : Option String) (field : String) (it : DbItem) : Bool :=
  match dLookup it field with
  | some (.s v) =>
    (match start? with | some s => strLE s v | none => true) &&
    (match end? with | some e => strLE v e | none => true)
  | _ => start?.isNone && end?.isNone

/-- Oracle for the witness of C2: every fetch raises ClientError. -/
def fetchFailW : String → String → Except Unit RawEmail :=
  fun _ _ => .error ()
/-- Parse oracle for the witness of C2: parsing always raises. -/
def parseFailW : RawEmail → Except PyErr Booking :=
  fun _ => .error .valueError
/-- Event records for the witness of C2: one s3 record whose fetch fails and
one sqs record. -/
def recordsW : List SRecord :=
  [{ eventSource := some "aws:s3", s3 := some ⟨"bkt", "emails%2Fa.eml"⟩ },
   { eventSource := some "aws:sqs" }]
/-- Respond oracle for the witness of C1: the API call raises. -/
def respondFailW : ChatRequest → Except PyErr ChatResponse :=
  fun _ => .error .clientError
/-- Parsedate oracle used by witnesses: header parsing always fails. -/
def parsedateNoneW : String → Option PyDate :=
  fun _ => none
/-- Email input for the witness of C1. -/
def emailW : RawEmail :=
  { raw := "raw", dateHeader := none, text := "Hello Ann", anchors := [] }
/-- Arguments JSON of the witness of C4: a marketing extraction. -/
def argsW : Json :=
  Json.obj [("kind", Json.str "marketing"), ("booking", Json.null)]
/-- Response of the witness of C4: one choice with one tool call. -/
def respW : ChatResponse :=
  { choices := [{ message := { tool_calls := some [{ function := { arguments := some argsW } }] } }] }
/-- Respond oracle of the witness of C4. -/
def respondOkW : ChatRequest → Except PyErr ChatResponse :=
  fun _ => .ok respW
/-- Items of the witness of C6: three items over two scan pages, the middle
one lacking the date field. -/
def itemsW : List DbItem :=
  [[("confirmation", DVal.s "A"), ("check_in_date", DVal.s "2025-03-20")],
   [("confirmation", DVal.s "B")],
   [("confirmation", DVal.s "C"), ("check_in_date", DVal.s "2025-06-01")]]
/-- Read table of the witness of C5: a single stored item under key AAA. -/
def tblW : ReadTable := fun k =>
  if k = "AAA" then some [("confirmation", DVal.s "AAA"), ("name", DVal.s "John")]
  else none
/-- Environment of the secrets-lookup counterexample: OPENAI_API_KEY is set
but empty. -/
def envEmptyW : String → Option String :=
  fun n => if n = "OPENAI_API_KEY" then some "" else none
/-- Environment of the secrets-lookup witness: a non-empty key. -/
def envKeyW : String → Option String :=
  fun n => if n = "OPENAI_API_KEY" then some "sk-test" else none
/-- Secrets oracle used by the C7 theorems. -/
def fetchNoneW : String → SecretFetch := fun _ => .clientError
/-- JSON parse oracle used by the C7 theorems. -/
def jparseNoneW : String → Option Json := fun _ => none
/-- Email of the witness of C8: two premierinn anchors, the bare host link
winning on path length. -/
def emailW8 : RawEmail :=
  { raw := "raw"
    dateHeader := none
    text := "Hello Ann"
    anchors := ["https://www.premierinn.com/gb/en/site.html", "https://www.premierinn.com/",
                "https://other.example/"] }
/-- Booking value the fallback parser produces for the witness email. -/
def bW8 : Booking :=
  { name := "Ann", confirmation := "", check_in_date := ⟨2025, 1, 5⟩
    check_out_date := ⟨2025, 1, 5⟩, check_in_time := "", check_out_time := ""
    early_check_in_time := "", early_check_in_cost := "0"
    breakfast_included := false, cancellation_terms := "", address := ""
    city := "London", booking_date := ⟨2025, 1, 5⟩, what3words := ""
    website := "https://www.premierinn.com/", amount_paid := "0"
    amount_total := "0", room_type := "" }
/-- Email of the witness of C9: a header-less email with no check lines. -/
def emailW9 : RawEmail :=
  { raw := "raw", dateHeader := none, text := "Hello Bea\nTotal price\n£20.00", anchors := [] }
/-- Booking value the fallback parser produces for the witness email of C9. -/
def bW9 : Booking :=
  { name := "Bea", confirmation := "", check_in_date := ⟨2025, 1, 5⟩
    check_out_date := ⟨2025, 1, 5⟩, check_in_time := "", check_out_time := ""
    early_check_in_time := "", early_check_in_cost := "0"
    breakfast_included := false, cancellation_terms := "", address := ""
    city := "London", booking_date := ⟨2025, 1, 5⟩, what3words := ""
    website := "https://premierinn.com/", amount_paid := "0"
    amount_total := "20.00", room_type := "" }

/- ================================================================== -/
/- Theorems                                                            -/
/- ================================================================== -/


/-- C3: store_result upserts a booking record keyed on its confirmation: a
second call with the same confirmation overwrites every booking attribute
and sets updated_at to the new timestamp, while created_at keeps the value
written by the first insert; the if_not_exists clause assigns created_at
only when the item did not previously exist. -/
theorem store_result_upsert (t : BookingsTable) (p q : Parsed) (n₁ n₂ c : String)
    (hp : deriveConfirmation p = c) (hq : deriveConfirmation q = c)
    (h₀ : t c = none) :
    (store_result q n₂ (store_result p n₁ t).1).1 c =
      some
        { confirmation := c
          name := q.name, address := q.address, city := q.city
          check_in_date := q.check_in_date, check_out_date := q.check_out_date
          booking_date := q.booking_date
          check_in_time := q.check_in_time, check_out_time := q.check_out_time
          early_check_in_time := q.early_check_in_time
          early_check_in_cost := q.early_check_in_cost
          amount_paid := q.amount_paid, amount_total := q.amount_total
          breakfast_included := q.breakfast_included.getD false
          cancellation_terms := q.cancellation_terms
          what3words := q.what3words, room_type := q.room_type
          website := normWebsite q
          source_bucket := q.source_bucket, source_key := q.source_key
          updated_at := n₂, created_at := n₁ } ∧
    (∀ (t₂ : BookingsTable) (old : StoredItem), t₂ c = some old →
      ((store_result q n₂ t₂).1 c).map StoredItem.created_at = some old.created_at) := by
  constructor
  · simp [store_result, hp, hq, h₀]
  · intro t₂ old hold
    simp [store_result, hq, hold]
/-- Witness for store_result_upsert at a concrete table and two parsed
dicts sharing the confirmation AAA. -/
theorem store_result_upsert_witness :
    (store_result { confirmation := some "AAA", name := some "second" } "T2"
      (store_result { confirmation := some "AAA", name := some "first" } "T1"
        (fun _ => none)).1).1 "AAA" =
      some
        { confirmation := "AAA"
          name := some "second", address := none, city := none
          check_in_date := none, check_out_date := none, booking_date := none
          check_in_time := none, check_out_time := none
          early_check_in_time := none, early_check_in_cost := none
          amount_paid := none, amount_total := none
          breakfast_included := false, cancellation_terms := none
          what3words := none, room_type := none, website := none
          source_bucket := none, source_key := none
          updated_at := "T2", created_at := "T1" } :=
  (store_result_upsert (fun _ => none)
    { confirmation := some "AAA", name := some "first" }
    { confirmation := some "AAA", name := some "second" }
    "T1" "T2" "AAA" (by decide) (by decide) rfl).1
/-- C10: every item written by store_result carries the confirmation
attribute as its key; when the parsed confirmation is missing or falsy the
key is the id value if truthy, else source_key with every slash replaced
by an underscore (defaulting to unknown when source_key is absent), and
the item is written under that key, which is also written back into the
parsed dict. -/
theorem store_result_key (p : Parsed) (now : String) (t : BookingsTable) :
    (truthyStr p.confirmation = true → some (deriveConfirmation p) = p.confirmation) ∧
    (truthyStr p.confirmation = false → truthyStr p.id = true →
      some (deriveConfirmation p) = p.id) ∧
    (truthyStr p.confirmation = false → truthyStr p.id = false →
      deriveConfirmation p = pyReplaceChar (p.source_key.getD "unknown") '/' '_') ∧
    (∀ it, (store_result p now t).1 (deriveConfirmation p) = some it →
      it.confirmation = deriveConfirmation p) ∧
    ((store_result p now t).1 (deriveConfirmation p)).isSome = true ∧
    (store_result p now t).2.confirmation = some (deriveConfirmation p) := by
  refine ⟨?_, ?_, ?_, ?_, ?_, ?_⟩
  · intro h
    cases hc : p.confirmation with
    | none => simp [truthyStr, hc] at h
    | some c =>
      have hne : c ≠ "" := by simpa [truthyStr, hc] using h
      simp [deriveConfirmation, hc, hne]
  · intro h hid
    obtain ⟨i, hi⟩ : ∃ i, p.id = some i := by
      cases hi : p.id with
      | none => simp [truthyStr, hi] at hid
      | some i => exact ⟨i, rfl⟩
    have hine : i ≠ "" := by
      by_contra hcc
      simp [truthyStr, hi, hcc] at hid
    cases hc : p.confirmation with
    | none => simp [deriveConfirmation, hc, pyOrOpt, hi, hine]
    | some c =>
      have hce : c = "" := by
        by_contra hcc
        simp [truthyStr, hc, hcc] at h
      simp [deriveConfirmation, hc, hce, pyOrOpt, hi, hine]
  · intro h hid
    have hkey : pyOrOpt p.id (some (pyReplaceChar (p.source_key.getD "unknown") '/' '_')) =
        some (pyReplaceChar (p.source_key.getD "unknown") '/' '_') := by
      cases hi : p.id with
      | none => simp [pyOrOpt]
      | some i =>
        have hie : i = "" := by
          by_contra hcc
          simp [truthyStr, hi, hcc] at hid
        simp [pyOrOpt, hie]
    cases hc : p.confirmation with
    | none => simp [deriveConfirmation, hc, hkey]
    | some c =>
      have hce : c = "" := by
        by_contra hcc
        simp [truthyStr, hc, hcc] at h
      simp [deriveConfirmation, hc, hce, hkey]
  · intro it hit
    simp [store_result] at hit
    subst hit
    rfl
  · simp [store_result]
  · simp [store_result]
/-- Witness for store_result_key at a parsed dict with no confirmation and
no id: the key comes from source_key with slashes replaced. -/
theorem store_result_key_witness :
    deriveConfirmation { source_key := some "emails/a.eml" } = "emails_a.eml" ∧
    (store_result { source_key := some "emails/a.eml" } "T0"
      (fun _ => none)).2.confirmation = some "emails_a.eml" := by
  have h := store_result_key { source_key := some "emails/a.eml" } "T0" (fun _ => none)
  have hk : deriveConfirmation { source_key := some "emails/a.eml" } = "emails_a.eml" :=
    (h.2.2.1 (by decide) (by decide)).trans (by decide)
  exact ⟨hk, h.2.2.2.2.2.trans (by rw [hk])⟩
/-- Helper: a record that is well formed (an s3 payload whenever it claims
the aws:s3 source) never raises out of processRecord. -/
theorem processRecord_ok (fetch : String → String → Except Unit RawEmail)
    (parseFn : RawEmail → Except PyErr Booking) (r : SRecord)
    (h : recSource r = some "aws:s3" → r.s3 ≠ none) :
    processRecord fetch parseFn r =
      .ok (recFetches fetch parseFn r, recStores fetch parseFn r) := by
  obtain ⟨pr, hpr⟩ : ∃ pr, processRecord fetch parseFn r = .ok pr := by
    by_cases hsrc : recSource r = some "aws:s3"
    · cases hs3 : r.s3 with
      | none => exact absurd hs3 (h hsrc)
      | some info =>
        cases hf : fetch info.bucket (unquote_plus info.key) with
        | error e =>
          refine ⟨([(info.bucket, unquote_plus info.key)], []), ?_⟩
          simp [processRecord, hsrc, hs3, hf]
        | ok raw =>
          cases hp : parseFn raw with
          | error e =>
            refine ⟨([(info.bucket, unquote_plus info.key)], []), ?_⟩
            simp [processRecord, hsrc, hs3, hf, hp]
          | ok booking =>
            refine ⟨([(info.bucket, unquote_plus info.key)],
              [finalizeParsed booking info.bucket (unquote_plus info.key)]), ?_⟩
            simp [processRecord, hsrc, hs3, hf, hp]
    · exact ⟨([], []), by simp [processRecord, hsrc]⟩
  rw [hpr, recFetches, recStores, hpr]
/-- C2: failure handling in lambda_handler is catch-and-log.  For every well
formed event the handler returns statusCode 200 with body OK and its trace
is the concatenation of the per-record traces (processing continues across
records); a record whose event source is not aws:s3 is skipped without any
fetch or store; a ClientError while fetching, or any exception while
parsing, leaves the record without a store while the fetch is the only
trace it contributes. -/
theorem lambda_handler_catch_and_log (fetch : String → String → Except Unit RawEmail)
    (parseFn : RawEmail → Except PyErr Booking) (records : List SRecord)
    (h : ∀ r ∈ records, recSource r = some "aws:s3" → r.s3 ≠ none) :
    lambda_handler fetch parseFn records =
      .ok (⟨(records.map (recFetches fetch parseFn)).flatten,
            (records.map (recStores fetch parseFn)).flatten⟩,
           ⟨200, "OK"⟩) ∧
    (∀ r, recSource r ≠ some "aws:s3" →
      processRecord fetch parseFn r = .ok ([], [])) ∧
    (∀ r info, recSource r = some "aws:s3" → r.s3 = some info →
      (∀ e, fetch info.bucket (unquote_plus info.key) = .error e →
        processRecord fetch parseFn r =
          .ok ([(info.bucket, unquote_plus info.key)], [])) ∧
      (∀ raw e, fetch info.bucket (unquote_plus info.key) = .ok raw →
        parseFn raw = .error e →
        processRecord fetch parseFn r =
          .ok ([(info.bucket, unquote_plus info.key)], []))) := by
  refine ⟨?_, ?_, ?_⟩
  · have main : runRecords fetch parseFn records =
        .ok ⟨(records.map (recFetches fetch parseFn)).flatten,
             (records.map (recStores fetch parseFn)).flatten⟩ := by
      induction records with
      | nil => rfl
      | cons r rest ih =>
        have hr := processRecord_ok fetch parseFn r (h r (by simp))
        have hrest := ih (fun x hx => h x (by simp [hx]))
        simp only [runRecords, hr, hrest, List.map_cons, List.flatten_cons]
        rfl
    simp [lambda_handler, main, Except.map]
  · intro r hsrc
    simp [processRecord, hsrc]
  · intro r info hsrc hs3
    constructor
    · intro e he
      simp [processRecord, hsrc, hs3, he]
    · intro raw e hraw hparse
      simp [processRecord, hsrc, hs3, hraw, hparse]
/-- Witness for lambda_handler_catch_and_log: the failing fetch leaves no
store, the sqs record leaves no fetch, and the handler returns 200 OK. -/
theorem lambda_handler_catch_and_log_witness :
    lambda_handler fetchFailW parseFailW recordsW =
      .ok (⟨[("bkt", "emails/a.eml")], []⟩, ⟨200, "OK"⟩) := by
  have h := lambda_handler_catch_and_log fetchFailW parseFailW recordsW
    (by intro r hr hsrc; fin_cases hr <;> simp_all [recordsW, recSource, pyOrOpt])
  refine h.1.trans ?_
  have : unquote_plus "emails%2Fa.eml" = "emails/a.eml" := by decide
  simp [recordsW, recFetches, recStores, processRecord, recSource, pyOrOpt,
    fetchFailW, this]
/-- C1: parse_email, the LLM-backed extraction entry point with the
regex/HTML parser as fallback, applies parse_booking to every email on
which the LLM extraction path fails. -/
theorem parse_email_fallback (respond : ChatRequest → Except PyErr ChatResponse)
    (parsedate : String → Option PyDate) (today : PyDate) (e : RawEmail)
    (err : PyErr) (h : llm_extract_email respond e.raw = .error err) :
    parse_email respond parsedate today e = parse_booking parsedate today e := by
  simp [parse_email, h]
/-- Witness for parse_email_fallback: with a failing LLM oracle the entry
point equals the fallback parser. -/
theorem parse_email_fallback_witness :
    parse_email respondFailW parsedateNoneW ⟨2025, 1, 5⟩ emailW =
      parse_booking parsedateNoneW ⟨2025, 1, 5⟩ emailW :=
  parse_email_fallback respondFailW parsedateNoneW ⟨2025, 1, 5⟩ emailW
    .clientError rfl
/-- C4: llm_extract_email implements a fixed request/response and
data-validation contract: the request always carries the fixed system
prompt, the extract_booking tool built from the ExtractionResult JSON
schema, and temperature 0; for a response whose first tool call carries
JSON arguments validating against the schema the corresponding
ExtractionResult (a kind string and an optional Booking) is returned, and
an exception is raised when the response has no tool call or the arguments
fail validation. -/
theorem llm_extract_email_contract (respond : ChatRequest → Except PyErr ChatResponse)
    (email_text : String) :
    (llmRequest email_text).temperature = 0 ∧
    (llmRequest email_text).messages =
      [⟨"system", llmSystemPrompt⟩, ⟨"user", email_text⟩] ∧
    (llmRequest email_text).tools = [get_extract_booking_tool] ∧
    get_extract_booking_tool.function.name = "extract_booking" ∧
    get_extract_booking_tool.function.parameters = extractionResultJsonSchema ∧
    (∀ resp, respond (llmRequest email_text) = .ok resp →
      (∀ r, llm_extract_email respond email_text = .ok r ↔
        ∃ tc args, firstToolCall resp = some tc ∧ tc.function.arguments = some args ∧
          validateExtractionResult args = some r) ∧
      (firstToolCall resp = none →
        ∃ err, llm_extract_email respond email_text = .error err) ∧
      (∀ tc args, firstToolCall resp = some tc → tc.function.arguments = some args →
        validateExtractionResult args = none →
        llm_extract_email respond email_text = .error .validationError)) := by
  refine ⟨rfl, rfl, rfl, rfl, rfl, ?_⟩
  intro resp hresp
  have hrun : llm_extract_email respond email_text = extractFromResponse resp := by
    unfold llm_extract_email
    rw [hresp]
    rfl
  refine ⟨?_, ?_, ?_⟩
  · intro r
    rw [hrun]
    constructor
    · intro hok
      cases hch : resp.choices with
      | nil => simp [extractFromResponse, hch] at hok
      | cons choice rest =>
        cases htc : choice.message.tool_calls with
        | none => simp [extractFromResponse, hch, htc] at hok
        | some tcs =>
          cases tcs with
          | nil => simp [extractFromResponse, hch, htc] at hok
          | cons tc tcs₂ =>
            cases harg : tc.function.arguments with
            | none => simp [extractFromResponse, hch, htc, harg] at hok
            | some args =>
              cases hv : validateExtractionResult args with
              | none => simp [extractFromResponse, hch, htc, harg, hv] at hok
              | some r₂ =>
                have hr : r₂ = r := by
                  simpa [extractFromResponse, hch, htc, harg, hv] using hok
                refine ⟨tc, args, by simp [firstToolCall, hch, htc], harg, ?_⟩
                rw [hv, hr]
    · rintro ⟨tc, args, hfirst, harg, hv⟩
      cases hch : resp.choices with
      | nil => simp [firstToolCall, hch] at hfirst
      | cons choice rest =>
        cases htc : choice.message.tool_calls with
        | none => simp [firstToolCall, hch, htc] at hfirst
        | some tcs =>
          cases tcs with
          | nil => simp [firstToolCall, hch, htc] at hfirst
          | cons tc₂ tcs₂ =>
            have htceq : tc₂ = tc := by
              simpa [firstToolCall, hch, htc] using hfirst
            subst htceq
            simp [extractFromResponse, hch, htc, harg, hv]
  · intro hnone
    rw [hrun]
    cases hch : resp.choices with
    | nil => exact ⟨.indexError, by simp [extractFromResponse, hch]⟩
    | cons choice rest =>
      cases htc : choice.message.tool_calls with
      | none => exact ⟨.typeError, by simp [extractFromResponse, hch, htc]⟩
      | some tcs =>
        cases tcs with
        | nil => exact ⟨.indexError, by simp [extractFromResponse, hch, htc]⟩
        | cons tc tcs₂ => simp [firstToolCall, hch, htc] at hnone
  · intro tc args hfirst harg hv
    rw [hrun]
    cases hch : resp.choices with
    | nil => simp [firstToolCall, hch] at hfirst
    | cons choice rest =>
      cases htc : choice.message.tool_calls with
      | none => simp [firstToolCall, hch, htc] at hfirst
      | some tcs =>
        cases tcs with
        | nil => simp [firstToolCall, hch, htc] at hfirst
        | cons tc₂ tcs₂ =>
          have htceq : tc₂ = tc := by
            simpa [firstToolCall, hch, htc] using hfirst
          subst htceq
          simp [extractFromResponse, hch, htc, harg, hv]
/-- Witness for llm_extract_email_contract: temperature 0 and a valid
marketing tool call round-trips into the ExtractionResult. -/
theorem llm_extract_email_contract_witness :
    (llmRequest "hi").temperature = 0 ∧
    llm_extract_email respondOkW "hi" = .ok ⟨"marketing", none⟩ := by
  have h := llm_extract_email_contract respondOkW "hi"
  refine ⟨h.1, ?_⟩
  exact ((h.2.2.2.2.2 respW rfl).1 ⟨"marketing", none⟩).mpr
    ⟨{ function := { arguments := some argsW } }, argsW, rfl, rfl, rfl⟩
/-- Helper: the scan pagination loop visits the whole table, so it computes
exactly the filtered list, for any positive page size and enough fuel. -/
theorem scanLoop_eq_filter (items : List DbItem) (pass : DbItem → Bool)
    (pageSize : Nat) (hp : 0 < pageSize) :
    ∀ fuel startIdx, items.length - startIdx < fuel →
      scanLoop items pass pageSize fuel startIdx = (items.drop startIdx).filter pass := by
  intro fuel
  induction fuel with
  | zero => exact fun startIdx h => absurd h (Nat.not_lt_zero _)
  | succ n ih =>
    intro startIdx h
    by_cases hlt : startIdx + pageSize < items.length
    · have h₂ : items.length - (startIdx + pageSize) < n := by omega
      simp only [scanLoop, scanPage, hlt, if_true]
      rw [ih _ h₂, ← List.filter_append, List.drop_take_append_drop]
    · simp only [scanLoop, scanPage, hlt, if_false]
      have hlen : (items.drop startIdx).length ≤ pageSize := by
        simp only [List.length_drop]
        omega
      rw [List.take_of_length_le hlen]
/-- C6: get_bookings_by_date_range returns exactly the stored bookings whose
date-field value lies between the provided bounds, each bound inclusive
and applied only when that argument is provided; with neither bound it
returns all bookings, and the scan pagination is followed to exhaustion so
no matching item is omitted. -/
theorem get_bookings_by_date_range_spec (items : List DbItem) (pageSize : Nat)
    (start? end? : Option String) (field : String) (hp : 0 < pageSize)
    (hs : ∀ s, start? = some s → s ≠ "") (he : ∀ e, end? = some e → e ≠ "") :
    DynamoDBService.get_bookings_by_date_range items pageSize start? end? field =
      (items.filter (inDateRange start? end? field)).map
        DynamoDBService._convert_dynamodb_item ∧
    (start? = none → end? = none →
      DynamoDBService.get_bookings_by_date_range items pageSize start? end? field =
        items.map DynamoDBService._convert_dynamodb_item) := by
  have hpred : ∀ it, passFilter (dateFilterConds start? end? field) it =
      inDateRange start? end? field it := by
    intro it
    cases hst : start? with
    | none =>
      cases hen : end? with
      | none =>
        cases hdl : dLookup it field with
        | none => simp [passFilter, dateFilterConds, inDateRange, hdl]
        | some v => cases v <;> simp [passFilter, dateFilterConds, inDateRange, hdl]
      | some e₂ =>
        have hne : e₂ ≠ "" := he e₂ hen
        cases hdl : dLookup it field with
        | none => simp [passFilter, dateFilterConds, inDateRange, hdl, hne, condLE]
        | some v =>
          cases v <;>
            simp [passFilter, dateFilterConds, inDateRange, hdl, hne, condLE]
    | some s₂ =>
      have hns : s₂ ≠ "" := hs s₂ hst
      cases hen : end? with
      | none =>
        cases hdl : dLookup it field with
        | none => simp [passFilter, dateFilterConds, inDateRange, hdl, hns, condGE]
        | some v =>
          cases v <;>
            simp [passFilter, dateFilterConds, inDateRange, hdl, hns, condGE]
      | some e₂ =>
        have hne : e₂ ≠ "" := he e₂ hen
        cases hdl : dLookup it field with
        | none =>
          simp [passFilter, dateFilterConds, inDateRange, hdl, hns, hne, condGE, condLE]
        | some v =>
          cases v <;>
            simp [passFilter, dateFilterConds, inDateRange, hdl, hns, hne, condGE, condLE]
  have hmain :
      DynamoDBService.get_bookings_by_date_range items pageSize start? end? field =
        (items.filter (inDateRange start? end? field)).map
          DynamoDBService._convert_dynamodb_item := by
    unfold DynamoDBService.get_bookings_by_date_range
    show (scanLoop items (passFilter (dateFilterConds start? end? field)) pageSize
        (items.length + 1) 0).map DynamoDBService._convert_dynamodb_item =
      (items.filter (inDateRange start? end? field)).map
        DynamoDBService._convert_dynamodb_item
    rw [scanLoop_eq_filter items _ pageSize hp (items.length + 1) 0 (by omega)]
    rw [List.drop_zero, List.filter_congr (fun a _ => hpred a)]
  refine ⟨hmain, ?_⟩
  intro hs0 he0
  rw [hmain]
  have hall : items.filter (inDateRange start? end? field) = items := by
    rw [List.filter_eq_self]
    intro a ha
    cases hdl : dLookup a field with
    | none => simp [inDateRange, hdl, hs0, he0]
    | some v => cases v <;> simp [inDateRange, hdl, hs0, he0]
  rw [hall]
/-- Witness for get_bookings_by_date_range_spec: page size two, both bounds
provided; the two dated items come back, including the one on the second
page, and the field-less item is filtered out. -/
theorem get_bookings_by_date_range_spec_witness :
    DynamoDBService.get_bookings_by_date_range itemsW 2
      (some "2025-01-01") (some "2025-12-31") "check_in_date" =
      [[("confirmation", DVal.s "A"), ("check_in_date", DVal.s "2025-03-20")],
       [("confirmation", DVal.s "C"), ("check_in_date", DVal.s "2025-06-01")]] := by
  have h := (get_bookings_by_date_range_spec itemsW 2
    (some "2025-01-01") (some "2025-12-31") "check_in_date" (by decide)
    (by intro s hsome; cases hsome; decide)
    (by intro e hsome; cases hsome; decide)).1
  rw [h]
  rfl
/-- C5: the GET route by confirmation raises HTTP 404 with a detail message
naming the confirmation exactly when the DynamoDB lookup returns no item
for that key; when an item exists the endpoint returns it as a
BookingResponse carrying the stored fields.  Stored items are assumed well
typed for the response schema (real items always carry their key). -/
theorem get_booking_by_id_contract (table : ReadTable) (conf : String)
    (hwf : ∀ item, table conf = some item →
      responseFieldsOk (DynamoDBService._convert_dynamodb_item item) = true) :
    (get_booking_by_id table conf = .error (.http 404 (notFoundDetail conf)) ↔
      table conf = none) ∧
    (∀ item, table conf = some item →
      get_booking_by_id table conf =
        .ok (responseOfItem (DynamoDBService._convert_dynamodb_item item))) ∧
    strContains (notFoundDetail conf) conf = true := by
  have hok : ∀ item, table conf = some item →
      get_booking_by_id table conf =
        .ok (responseOfItem (DynamoDBService._convert_dynamodb_item item)) := by
    intro item ht
    have hconv := hwf item ht
    cases hitems : DynamoDBService._convert_dynamodb_item item with
    | nil =>
      rw [hitems] at hconv
      simp [responseFieldsOk, dLookup] at hconv
    | cons x xs =>
      rw [hitems] at hconv
      simp [get_booking_by_id, DynamoDBService.get_booking_by_id, ht, hitems,
        validateBookingResponse, hconv]
  refine ⟨?_, hok, ?_⟩
  · constructor
    · intro h404
      cases ht : table conf with
      | none => rfl
      | some item =>
        rw [hok item ht] at h404
        exact absurd h404 (by simp)
    · intro hnone
      simp [get_booking_by_id, DynamoDBService.get_booking_by_id, hnone]
  · apply decide_eq_true
    refine ⟨("Booking with confirmation " ++ sQuote).toList,
      (sQuote ++ " not found").toList, ?_⟩
    show ("Booking with confirmation " ++ sQuote).data ++ conf.data ++
        (sQuote ++ " not found").data = (notFoundDetail conf).data
    simp [notFoundDetail, String.data_append]
/-- Witness for get_booking_by_id_contract: the stored item comes back as a
response, and a missing key yields the 404 with its detail message. -/
theorem get_booking_by_id_contract_witness :
    get_booking_by_id tblW "AAA" =
      .ok (responseOfItem (DynamoDBService._convert_dynamodb_item
        [("confirmation", DVal.s "AAA"), ("name", DVal.s "John")])) ∧
    get_booking_by_id tblW "BBB" = .error (.http 404 (notFoundDetail "BBB")) := by
  have hA := get_booking_by_id_contract tblW "AAA" (by
    intro item h
    simp [tblW] at h
    subst h
    decide)
  have hB := get_booking_by_id_contract tblW "BBB" (by
    intro item h
    simp [tblW] at h)
  exact ⟨hA.2.1 _ rfl, hB.1.mpr rfl⟩
/-- C7 counterexample: the claim that a set OPENAI_API_KEY environment
variable is returned directly fails on the code when the variable is set
to the empty string, where the function instead falls through and returns
None. -/
theorem get_openai_api_key_claim_counterexample :
    ¬ (∀ (env : String → Option String) (fetch : String → SecretFetch)
         (jparse : String → Option Json) (k : String),
        env "OPENAI_API_KEY" = some k →
        get_openai_api_key env fetch jparse = .ok (some (.str k))) := by
  intro hclaim
  have h := hclaim envEmptyW fetchNoneW jparseNoneW "" (by rfl)
  have h₂ : get_openai_api_key envEmptyW fetchNoneW jparseNoneW = .ok none := rfl
  rw [h₂] at h
  exact Option.noConfusion (Except.ok.inj h)
/-- C7 (amended): when OPENAI_API_KEY is set to a non-empty string it is
returned directly; otherwise, when OPENAI_API_KEY_SECRET_ARN is set to a
non-empty string, the api_key field of the JSON secret is returned, with
None on a fetch ClientError, a missing SecretString, a JSON decode failure
or a missing or null api_key field; None is also returned when neither
variable is set to a non-empty string. -/
theorem get_openai_api_key_precedence (env : String → Option String)
    (fetch : String → SecretFetch) (jparse : String → Option Json) :
    (∀ k, env "OPENAI_API_KEY" = some k → k ≠ "" →
      get_openai_api_key env fetch jparse = .ok (some (.str k))) ∧
    (truthyStr (env "OPENAI_API_KEY") = false →
      (∀ arn, env "OPENAI_API_KEY_SECRET_ARN" = some arn → arn ≠ "" →
        (fetch arn = .clientError →
          get_openai_api_key env fetch jparse = .ok none) ∧
        (fetch arn = .ok none →
          get_openai_api_key env fetch jparse = .ok none) ∧
        (∀ body, fetch arn = .ok (some body) → jparse body = none →
          get_openai_api_key env fetch jparse = .ok none) ∧
        (∀ body kvs, fetch arn = .ok (some body) → jparse body = some (.obj kvs) →
          get_openai_api_key env fetch jparse =
            .ok (match jLookup kvs "api_key" with
                 | some Json.null => none
                 | some v => some v
                 | none => none))) ∧
      (truthyStr (env "OPENAI_API_KEY_SECRET_ARN") = false →
        get_openai_api_key env fetch jparse = .ok none)) := by
  refine ⟨?_, ?_⟩
  · intro k hk hne
    simp [get_openai_api_key, hk, hne]
  · intro htr
    have hredir : get_openai_api_key env fetch jparse =
        getKeyFromSecretsManager env fetch jparse := by
      cases he : env "OPENAI_API_KEY" with
      | none => simp [get_openai_api_key, he]
      | some k =>
        have hke : k = "" := by
          by_contra hcc
          simp [truthyStr, he, hcc] at htr
        simp [get_openai_api_key, he, hke]
    refine ⟨?_, ?_⟩
    · intro arn harn hane
      refine ⟨?_, ?_, ?_, ?_⟩
      · intro hf
        rw [hredir]
        simp [getKeyFromSecretsManager, harn, hane, hf]
      · intro hf
        rw [hredir]
        simp [getKeyFromSecretsManager, harn, hane, hf]
      · intro body hf hj
        rw [hredir]
        simp [getKeyFromSecretsManager, harn, hane, hf, hj]
      · intro body kvs hf hj
        rw [hredir]
        simp only [getKeyFromSecretsManager, harn, hane, hf, hj, if_neg, ne_eq,
          not_false_iff, if_true]
        cases hl : jLookup kvs "api_key" with
        | none => simp [getKeyFromSecretsManager, harn, hane, hf, hj, hl]
        | some v =>
          cases v <;> simp [getKeyFromSecretsManager, harn, hane, hf, hj, hl]
    · intro hat
      rw [hredir]
      cases ha : env "OPENAI_API_KEY_SECRET_ARN" with
      | none => simp [getKeyFromSecretsManager, ha]
      | some arn =>
        have hae : arn = "" := by
          by_contra hcc
          simp [truthyStr, ha, hcc] at hat
        simp [getKeyFromSecretsManager, ha, hae]
/-- Witness for get_openai_api_key_precedence: the non-empty environment key
is returned directly. -/
theorem get_openai_api_key_precedence_witness :
    get_openai_api_key envKeyW fetchNoneW jparseNoneW = .ok (some (.str "sk-test")) :=
  (get_openai_api_key_precedence envKeyW fetchNoneW jparseNoneW).1
    "sk-test" rfl (by decide)
/-- Helper: the running minimum of the website fold is one of the candidates. -/
theorem foldlMin_mem (rest : List UrlParts) : ∀ p : UrlParts,
    rest.foldl (fun acc q => if q.path.length < acc.path.length then q else acc) p ∈ p :: rest := by
  induction rest with
  | nil => intro p; simp
  | cons q rest ih =>
    intro p
    simp only [List.foldl_cons]
    have h := ih (if q.path.length < p.path.length then q else p)
    rw [List.mem_cons] at h
    rcases h with h | h
    · rw [h]
      by_cases hc : q.path.length < p.path.length
      · rw [if_pos hc]
        exact List.mem_cons_of_mem p (List.mem_cons_self q rest)
      · rw [if_neg hc]
        exact List.mem_cons_self p (q :: rest)
    · exact List.mem_cons_of_mem p (List.mem_cons_of_mem q h)
/-- Helper: the running minimum of the website fold has the least path
length among the candidates. -/
theorem foldlMin_le (rest : List UrlParts) : ∀ p r : UrlParts, r ∈ p :: rest →
    (rest.foldl (fun acc q => if q.path.length < acc.path.length then q else acc) p).path.length
      ≤ r.path.length := by
  induction rest with
  | nil =>
    intro p r hr
    rw [List.mem_cons] at hr
    rcases hr with h | h
    · subst h; simp
    · simp at h
  | cons q rest ih =>
    intro p r hr
    simp only [List.foldl_cons]
    rw [List.mem_cons, List.mem_cons] at hr
    by_cases hc : q.path.length < p.path.length
    · rw [if_pos hc]
      rcases hr with h | h | h
      · subst h
        exact (ih q q (List.mem_cons_self q rest)).trans (Nat.le_of_lt hc)
      · subst h
        exact ih r r (List.mem_cons_self r rest)
      · exact ih q r (List.mem_cons_of_mem q h)
    · rw [if_neg hc]
      have hpr : p.path.length ≤ q.path.length := Nat.le_of_not_lt hc
      rcases hr with h | h | h
      · subst h
        exact ih r r (List.mem_cons_self r rest)
      · subst h
        exact (ih p p (List.mem_cons_self p rest)).trans hpr
      · exact ih p r (List.mem_cons_of_mem p h)
/-- Helper: substring containment is preserved by surrounding text. -/
theorem strContains_append (a b mid sub : String) (h : strContains mid sub = true) :
    strContains (a ++ mid ++ b) sub = true := by
  apply decide_eq_true
  have h₂ : sub.toList <:+: mid.toList := of_decide_eq_true h
  obtain ⟨s, t, hst⟩ := h₂
  refine ⟨a.toList ++ s, t ++ b.toList, ?_⟩
  show (a.toList ++ s) ++ sub.toList ++ (t ++ b.toList) = ((a ++ mid) ++ b).data
  have hmid : s ++ sub.toList ++ t = mid.data := hst
  rw [String.data_append, String.data_append, ← hmid]
  show a.data ++ s ++ sub.data ++ (t ++ b.data) = a.data ++ (s ++ sub.data ++ t) ++ b.data
  simp [List.append_assoc]
/-- C8: the fallback parser is tied to one template: every Booking it returns
has city London, and its website is the root (scheme, netloc, slash) of a
premierinn.com link with the shortest URL path among the anchors, or the
constant premierinn.com root when no such link exists; either way the
website mentions premierinn.com. -/
theorem parse_booking_template (parsedate : String → Option PyDate) (today : PyDate)
    (e : RawEmail) (b : Booking)
    (h : parse_booking parsedate today e = .ok b) :
    b.city = "London" ∧
    b.website = websiteOf e.anchors ∧
    (piCandidates e.anchors = [] → b.website = "https://premierinn.com/") ∧
    (piCandidates e.anchors ≠ [] →
      ∃ q, q ∈ piCandidates e.anchors ∧
        (∀ r ∈ piCandidates e.anchors, q.path.length ≤ r.path.length) ∧
        b.website = q.scheme ++ "://" ++ q.netloc ++ "/") ∧
    strContains b.website "premierinn.com" = true := by
  have hb : b.city = "London" ∧ b.website = websiteOf e.anchors := by
    simp only [parse_booking] at h
    cases hst : checkScan (pyLines (flatText e))
        (_extract_booking_date parsedate today e) with
    | error err =>
      rw [hst] at h
      simp at h
    | ok st =>
      rw [hst] at h
      have hrec := Except.ok.inj (h : Except.ok _ = Except.ok b)
      rw [← hrec]
      exact ⟨rfl, rfl⟩
  refine ⟨hb.1, hb.2, ?_, ?_, ?_⟩
  · intro hnil
    rw [hb.2]
    simp [websiteOf, hnil]
  · intro hne
    cases hpi : piCandidates e.anchors with
    | nil => exact absurd hpi hne
    | cons p rest =>
      refine ⟨rest.foldl (fun acc q => if q.path.length < acc.path.length then q else acc) p,
        ?_, ?_, ?_⟩
      · exact foldlMin_mem rest p
      · intro r hr
        exact foldlMin_le rest p r hr
      · rw [hb.2]
        simp [websiteOf, hpi]
  · rw [hb.2]
    cases hpi : piCandidates e.anchors with
    | nil =>
      simp only [websiteOf, hpi]
      decide
    | cons p rest =>
      simp only [websiteOf, hpi]
      have hmem := foldlMin_mem rest p
      set q := rest.foldl (fun acc r => if r.path.length < acc.path.length then r else acc) p
        with hq
      have hqpi : q ∈ piCandidates e.anchors := by
        rw [hpi]
        exact hmem
      have hnet : strContains q.netloc "premierinn.com" = true := by
        have h₂ := hqpi
        unfold piCandidates at h₂
        exact List.of_mem_filter (p := fun u : UrlParts =>
          strContains u.netloc "premierinn.com") h₂
      have happ := strContains_append (q.scheme ++ "://") "/" q.netloc "premierinn.com" hnet
      have hassoc : q.scheme ++ "://" ++ q.netloc ++ "/" =
          (q.scheme ++ "://") ++ q.netloc ++ "/" := by
        rw [String.append_assoc]
      rw [hassoc]
      exact happ
/-- Witness for parse_booking_template: the concrete parse yields city London
and the root website of the shortest-path premierinn link. -/
theorem parse_booking_template_witness :
    parse_booking parsedateNoneW ⟨2025, 1, 5⟩ emailW8 = .ok bW8 ∧
    bW8.city = "London" ∧ bW8.website = "https://www.premierinn.com/" := by
  have h := parse_booking_template parsedateNoneW ⟨2025, 1, 5⟩ emailW8 bW8 rfl
  exact ⟨rfl, h.1, rfl⟩
/-- Helper: a fold of check steps over lines none of which starts with check
in (lowercased) leaves the check-in date component unchanged. -/
theorem checkFold_ciDate (lines : List String) (bd : PyDate) :
    ∀ (ps : List (Nat × String)) (st₀ st : CheckState),
      ps.foldlM (fun st p => checkStep lines bd p.1 p.2 st) st₀ = .ok st →
      (∀ p ∈ ps, strStartsWith (pyLower p.2) "check in" = false) →
      st.ciDate = st₀.ciDate := by
  intro ps
  induction ps with
  | nil =>
    intro st₀ st h _
    rw [List.foldlM_nil] at h
    exact congrArg CheckState.ciDate (Except.ok.inj h).symm
  | cons p ps ih =>
    intro st₀ st h hno
    rw [List.foldlM_cons] at h
    cases hstep : checkStep lines bd p.1 p.2 st₀ with
    | error e =>
      rw [hstep] at h
      exact Except.noConfusion h
    | ok st₁ =>
      rw [hstep] at h
      have h₂ : ps.foldlM (fun st p => checkStep lines bd p.1 p.2 st) st₁ = .ok st := h
      have hci : st₁.ciDate = st₀.ciDate := by
        have hp := hno p (List.mem_cons_self p ps)
        unfold checkStep at hstep
        rw [hp] at hstep
        simp only [Bool.false_eq_true, if_false, bind, Except.bind, pure,
          Except.pure] at hstep
        by_cases hout : strStartsWith (pyLower p.2) "check out" = true
        · rw [if_pos hout] at hstep
          cases hd : checkDateAt lines p.1 bd with
          | error e => rw [hd] at hstep; simp at hstep
          | ok d? =>
            rw [hd] at hstep
            simp only [Except.pure] at hstep
            have := Except.ok.inj hstep
            rw [← this]
        · rw [if_neg hout] at hstep
          have := Except.ok.inj hstep
          rw [← this]
      exact (ih st₁ st h₂ (fun r hr => hno r (List.mem_cons_of_mem p hr))).trans hci
/-- Helper: the symmetric statement for check out. -/
theorem checkFold_coDate (lines : List String) (bd : PyDate) :
    ∀ (ps : List (Nat × String)) (st₀ st : CheckState),
      ps.foldlM (fun st p => checkStep lines bd p.1 p.2 st) st₀ = .ok st →
      (∀ p ∈ ps, strStartsWith (pyLower p.2) "check out" = false) →
      st.coDate = st₀.coDate := by
  intro ps
  induction ps with
  | nil =>
    intro st₀ st h _
    rw [List.foldlM_nil] at h
    exact congrArg CheckState.coDate (Except.ok.inj h).symm
  | cons p ps ih =>
    intro st₀ st h hno
    rw [List.foldlM_cons] at h
    cases hstep : checkStep lines bd p.1 p.2 st₀ with
    | error e =>
      rw [hstep] at h
      exact Except.noConfusion h
    | ok st₁ =>
      rw [hstep] at h
      have h₂ : ps.foldlM (fun st p => checkStep lines bd p.1 p.2 st) st₁ = .ok st := h
      have hco : st₁.coDate = st₀.coDate := by
        have hp := hno p (List.mem_cons_self p ps)
        unfold checkStep at hstep
        rw [hp] at hstep
        simp only [Bool.false_eq_true, if_false, bind, Except.bind, pure,
          Except.pure] at hstep
        by_cases hin : strStartsWith (pyLower p.2) "check in" = true
        · rw [if_pos hin] at hstep
          cases hd : checkDateAt lines p.1 bd with
          | error e => rw [hd] at hstep; simp at hstep
          | ok d? =>
            rw [hd] at hstep
            simp only [Except.pure] at hstep
            have := Except.ok.inj hstep
            rw [← this]
        · rw [if_neg hin] at hstep
          have := Except.ok.inj hstep
          rw [← this]
      exact (ih st₁ st h₂ (fun r hr => hno r (List.mem_cons_of_mem p hr))).trans hco
/-- Helper: the second component of an enumerated pair is a list member. -/
theorem snd_mem_of_mem_enum {α : Type} {l : List α} {p : Nat × α}
    (h : p ∈ l.enum) : p.2 ∈ l := by
  rw [List.mem_enum_iff_getElem?] at h
  exact List.mem_iff_getElem?.mpr ⟨p.1, h⟩
/-- C9: for every email whose flattened text has no line starting with check
in (case-insensitive) the parsed check-in date equals the booking date,
likewise for check out; the booking date is the date of the Date header,
or today when that header is missing. -/
theorem parse_booking_date_fallback (parsedate : String → Option PyDate)
    (today : PyDate) (e : RawEmail) (b : Booking)
    (h : parse_booking parsedate today e = .ok b) :
    ((∀ ln ∈ pyLines (flatText e), strStartsWith (pyLower ln) "check in" = false) →
      b.check_in_date = b.booking_date) ∧
    ((∀ ln ∈ pyLines (flatText e), strStartsWith (pyLower ln) "check out" = false) →
      b.check_out_date = b.booking_date) ∧
    (e.dateHeader = none → b.booking_date = today) ∧
    (∀ hd d, e.dateHeader = some hd → parsedate hd = some d → b.booking_date = d) := by
  simp only [parse_booking] at h
  cases hst : checkScan (pyLines (flatText e))
      (_extract_booking_date parsedate today e) with
  | error err =>
    rw [hst] at h
    simp at h
  | ok st =>
    rw [hst] at h
    have hrec := Except.ok.inj (h : Except.ok _ = Except.ok b)
    have hstscan := hst
    unfold checkScan at hstscan
    refine ⟨?_, ?_, ?_, ?_⟩
    · intro hno
      have hci : st.ciDate = none :=
        checkFold_ciDate (pyLines (flatText e)) (_extract_booking_date parsedate today e)
          (pyLines (flatText e)).enum {} st hstscan
          (fun p hp => hno p.2 (snd_mem_of_mem_enum hp))
      rw [← hrec]
      show st.ciDate.getD (_extract_booking_date parsedate today e) =
        _extract_booking_date parsedate today e
      rw [hci]
      rfl
    · intro hno
      have hco : st.coDate = none :=
        checkFold_coDate (pyLines (flatText e)) (_extract_booking_date parsedate today e)
          (pyLines (flatText e)).enum {} st hstscan
          (fun p hp => hno p.2 (snd_mem_of_mem_enum hp))
      rw [← hrec]
      show st.coDate.getD (_extract_booking_date parsedate today e) =
        _extract_booking_date parsedate today e
      rw [hco]
      rfl
    · intro hdr
      rw [← hrec]
      show _extract_booking_date parsedate today e = today
      simp [_extract_booking_date, hdr]
    · intro hd d hdr hpd
      rw [← hrec]
      show _extract_booking_date parsedate today e = d
      simp [_extract_booking_date, hdr, hpd]
/-- Witness for parse_booking_date_fallback: with no check lines and no Date
header, both stay dates equal the booking date, which is today. -/
theorem parse_booking_date_fallback_witness :
    parse_booking parsedateNoneW ⟨2025, 1, 5⟩ emailW9 = .ok bW9 ∧
    bW9.check_in_date = bW9.booking_date ∧
    bW9.check_out_date = bW9.booking_date ∧
    bW9.booking_date = ⟨2025, 1, 5⟩ := by
  have h := parse_booking_date_fallback parsedateNoneW ⟨2025, 1, 5⟩ emailW9 bW9 rfl
  exact ⟨rfl, h.1 (by decide), h.2.1 (by decide), h.2.2.1 rfl⟩
